import Mathlib

/-!
Verification of the go-httphandler pipeline library.

The Go source is shallowly embedded: Go `error` values are modelled by their
message string, a decoder `func(*http.Request) (C, error)` becomes
`HttpRequest → Except Err C`, and a `Responder` (whose single `Respond`
operation writes one response) becomes a function from the request to the
final response value.  Handler entry points additionally return the ordered
trace of decoder/handler invocations, so that short-circuiting ("stage k+1 is
never invoked") is directly observable; the response component mirrors the Go
control flow exactly.
-/

namespace GoHttphandler

/-- Go `error` values are modelled by their message (`err.Error()`). -/
abbrev Err := String

/-- The parts of `*http.Request` the embedded code reads: header, query and
path parameters as association lists, plus an opaque token standing for the
request's ambient `context.Context`.  Lookup is case-sensitive (no claim
exercises Go's header canonicalization). -/
structure HttpRequest where
  headers : List (String × String)
  query : List (String × String)
  path : List (String × String)
  ctxToken : Nat
deriving Repr, DecidableEq

/-- `r.Header.Get(name)`: the first value for the key, or `""` when absent. -/
def HttpRequest.headerGet (r : HttpRequest) (name : String) : String :=
  (r.headers.lookup name).getD ""

/-- `r.URL.Query().Get(name)`: first value or `""` when absent. -/
def HttpRequest.queryGet (r : HttpRequest) (name : String) : String :=
  (r.query.lookup name).getD ""

/-- `r.PathValue(name)`: the matched path parameter or `""` when absent. -/
def HttpRequest.pathGet (r : HttpRequest) (name : String) : String :=
  (r.path.lookup name).getD ""

/-- The observable outcome of rendering one response: status code and body. -/
structure HttpResp where
  status : Nat
  body : String
deriving Repr, DecidableEq

/-- The `Responder` contract: render one response given the inbound request. -/
def Responder := HttpRequest → HttpResp

/-- `PipelineOptions` (pipeline.go).  The Go fields are nilable function
values, hence `Option`. -/
structure PipelineOptions where
  ContextErrorHandler : Option (Nat → Err → Responder)
  InputErrorHandler : Option (Err → Responder)

/-- Rendering through a nil handler field would nil-panic in Go; the sentinel
below stands for that crash.  Every pipeline built through the package
constructors installs both handlers, so the sentinel is unreachable there. -/
def nilHandlerPanic : Responder := fun _ => ⟨0, "panic: nil handler"⟩

/-- Call `options.ContextErrorHandler(stage, err)` as pipeline.go does,
without a nil check. -/
def PipelineOptions.callContextErrorHandler (o : PipelineOptions) (stage : Nat) (err : Err) :
    Responder :=
  (o.ContextErrorHandler.getD (fun _ _ => nilHandlerPanic)) stage err

/-- Call `options.InputErrorHandler(err)` as pipeline.go does. -/
def PipelineOptions.callInputErrorHandler (o : PipelineOptions) (err : Err) : Responder :=
  (o.InputErrorHandler.getD (fun _ => nilHandlerPanic)) err

/-- `http.Error(w, msg, code)`: writes the message followed by a newline. -/
def httpError (msg : Err) (code : Nat) : HttpResp :=
  ⟨code, msg ++ "\n"⟩

/-- `errorResponse` (pipeline.go): Responder carrying a status and an error. -/
structure ErrorResponse where
  statusCode : Nat
  err : Err

/-- `errorResponse.Respond`: `http.Error(w, e.err.Error(), e.statusCode)`. -/
def ErrorResponse.Respond (e : ErrorResponse) : Responder :=
  fun _ => httpError e.err e.statusCode

/-- `errorResponder` (pipeline.go): a 400 Bad Request for decode errors. -/
def errorResponder (err : Err) : Responder :=
  (ErrorResponse.mk 400 err).Respond

/-- `defaultOptions` (pipeline.go): wraps the error with a stage-identifying
message, `fmt.Errorf("context%d decode error: %w", stage, err)`. -/
def defaultOptions : PipelineOptions where
  ContextErrorHandler := some fun stage err =>
    errorResponder ("context" ++ toString stage ++ " decode error: " ++ err)
  InputErrorHandler := some fun err =>
    errorResponder ("input decode error: " ++ err)

/-- `WithContextErrorHandler` (pipeline.go), as a functional update. -/
def WithContextErrorHandler (handler : Nat → Err → Responder) :
    PipelineOptions → PipelineOptions :=
  fun opts => { opts with ContextErrorHandler := some handler }

/-- `WithInputErrorHandler` (pipeline.go), as a functional update. -/
def WithInputErrorHandler (handler : Err → Responder) :
    PipelineOptions → PipelineOptions :=
  fun opts => { opts with InputErrorHandler := some handler }

/-- The constructors' option loop: apply each option function in order. -/
def applyOptions (base : PipelineOptions)
    (options : List (PipelineOptions → PipelineOptions)) : PipelineOptions :=
  options.foldl (fun o f => f o) base

/-- One entry of the invocation trace attached to the embedded handlers. -/
inductive Call where
  | stage : Nat → Call
  | inputDec : Call
  | handlerRun : Call
deriving Repr, DecidableEq, BEq

/-- The trace left by running stage decoders `1..k` in order. -/
def stageTrace : Nat → List Call
  | 0 => []
  | k + 1 => stageTrace k ++ [Call.stage (k + 1)]

/-- How every handler entry point finishes: a nil `Responder` result renders
`204 No Content` with an empty body, otherwise the Responder renders. -/
def renderResult (res : Option Responder) (r : HttpRequest) : HttpResp :=
  match res with
  | none => ⟨204, ""⟩
  | some f => f r

/-- `Pipeline1` (pipeline.go): one stage decoder plus options. -/
structure Pipeline1 (C : Type) where
  decoder : HttpRequest → Except Err C
  options : PipelineOptions

/-- `NewPipeline1` (pipeline.go): defaults, then the provided options. -/
def NewPipeline1 {C : Type}
    (decoder : HttpRequest → Except Err C)
    (options : List (PipelineOptions → PipelineOptions)) : Pipeline1 C where
  decoder := decoder
  options := applyOptions defaultOptions options

/-- `Pipeline2` (pipeline.go): the arity-1 pipeline it extends, the stage-2 decoder, and options. -/
structure Pipeline2 (C1 C2 : Type) where
  p1 : Pipeline1 C1
  decoder : HttpRequest → C1 → Except Err C2
  options : PipelineOptions

/-- `NewPipeline2` (pipeline.go): starts from the previous pipeline's options, then applies new ones. -/
def NewPipeline2 {C1 C2 : Type} (p : Pipeline1 C1)
    (decoder : HttpRequest → C1 → Except Err C2)
    (options : List (PipelineOptions → PipelineOptions)) : Pipeline2 C1 C2 where
  p1 := p
  decoder := decoder
  options := applyOptions p.options options

/-- `Pipeline3` (pipeline.go): the arity-2 pipeline it extends, the stage-3 decoder, and options. -/
structure Pipeline3 (C1 C2 C3 : Type) where
  p2 : Pipeline2 C1 C2
  decoder : HttpRequest → C1 → C2 → Except Err C3
  options : PipelineOptions

/-- `NewPipeline3` (pipeline.go): starts from the previous pipeline's options, then applies new ones. -/
def NewPipeline3 {C1 C2 C3 : Type} (p : Pipeline2 C1 C2)
    (decoder : HttpRequest → C1 → C2 → Except Err C3)
    (options : List (PipelineOptions → PipelineOptions)) : Pipeline3 C1 C2 C3 where
  p2 := p
  decoder := decoder
  options := applyOptions p.options options

/-- `Pipeline4` (pipeline.go): the arity-3 pipeline it extends, the stage-4 decoder, and options. -/
structure Pipeline4 (C1 C2 C3 C4 : Type) where
  p3 : Pipeline3 C1 C2 C3
  decoder : HttpRequest → C1 → C2 → C3 → Except Err C4
  options : PipelineOptions

/-- `NewPipeline4` (pipeline.go): starts from the previous pipeline's options, then applies new ones. -/
def NewPipeline4 {C1 C2 C3 C4 : Type} (p : Pipeline3 C1 C2 C3)
    (decoder : HttpRequest → C1 → C2 → C3 → Except Err C4)
    (options : List (PipelineOptions → PipelineOptions)) : Pipeline4 C1 C2 C3 C4 where
  p3 := p
  decoder := decoder
  options := applyOptions p.options options

/-- `Pipeline5` (pipeline.go): the arity-4 pipeline it extends, the stage-5 decoder, and options. -/
structure Pipeline5 (C1 C2 C3 C4 C5 : Type) where
  p4 : Pipeline4 C1 C2 C3 C4
  decoder : HttpRequest → C1 → C2 → C3 → C4 → Except Err C5
  options : PipelineOptions

/-- `NewPipeline5` (pipeline.go): starts from the previous pipeline's options, then applies new ones. -/
def NewPipeline5 {C1 C2 C3 C4 C5 : Type} (p : Pipeline4 C1 C2 C3 C4)
    (decoder : HttpRequest → C1 → C2 → C3 → C4 → Except Err C5)
    (options : List (PipelineOptions → PipelineOptions)) : Pipeline5 C1 C2 C3 C4 C5 where
  p4 := p
  decoder := decoder
  options := applyOptions p.options options

/-- `Pipeline6` (pipeline.go): the arity-5 pipeline it extends, the stage-6 decoder, and options. -/
structure Pipeline6 (C1 C2 C3 C4 C5 C6 : Type) where
  p5 : Pipeline5 C1 C2 C3 C4 C5
  decoder : HttpRequest → C1 → C2 → C3 → C4 → C5 → Except Err C6
  options : PipelineOptions

/-- `NewPipeline6` (pipeline.go): starts from the previous pipeline's options, then applies new ones. -/
def NewPipeline6 {C1 C2 C3 C4 C5 C6 : Type} (p : Pipeline5 C1 C2 C3 C4 C5)
    (decoder : HttpRequest → C1 → C2 → C3 → C4 → C5 → Except Err C6)
    (options : List (PipelineOptions → PipelineOptions)) : Pipeline6 C1 C2 C3 C4 C5 C6 where
  p5 := p
  decoder := decoder
  options := applyOptions p.options options

/-- `Pipeline7` (pipeline.go): the arity-6 pipeline it extends, the stage-7 decoder, and options. -/
structure Pipeline7 (C1 C2 C3 C4 C5 C6 C7 : Type) where
  p6 : Pipeline6 C1 C2 C3 C4 C5 C6
  decoder : HttpRequest → C1 → C2 → C3 → C4 → C5 → C6 → Except Err C7
  options : PipelineOptions

/-- `NewPipeline7` (pipeline.go): starts from the previous pipeline's options, then applies new ones. -/
def NewPipeline7 {C1 C2 C3 C4 C5 C6 C7 : Type} (p : Pipeline6 C1 C2 C3 C4 C5 C6)
    (decoder : HttpRequest → C1 → C2 → C3 → C4 → C5 → C6 → Except Err C7)
    (options : List (PipelineOptions → PipelineOptions)) : Pipeline7 C1 C2 C3 C4 C5 C6 C7 where
  p6 := p
  decoder := decoder
  options := applyOptions p.options options

/-- `Pipeline8` (pipeline.go): the arity-7 pipeline it extends, the stage-8 decoder, and options. -/
structure Pipeline8 (C1 C2 C3 C4 C5 C6 C7 C8 : Type) where
  p7 : Pipeline7 C1 C2 C3 C4 C5 C6 C7
  decoder : HttpRequest → C1 → C2 → C3 → C4 → C5 → C6 → C7 → Except Err C8
  options : PipelineOptions

/-- `NewPipeline8` (pipeline.go): starts from the previous pipeline's options, then applies new ones. -/
def NewPipeline8 {C1 C2 C3 C4 C5 C6 C7 C8 : Type} (p : Pipeline7 C1 C2 C3 C4 C5 C6 C7)
    (decoder : HttpRequest → C1 → C2 → C3 → C4 → C5 → C6 → C7 → Except Err C8)
    (options : List (PipelineOptions → PipelineOptions)) : Pipeline8 C1 C2 C3 C4 C5 C6 C7 C8 where
  p7 := p
  decoder := decoder
  options := applyOptions p.options options

/-- `HandlePipelineWithInput1` (pipeline.go): run the 1 stage decoder, then the
input decoder, then the business handler, short-circuiting on the first error.
The second component is the trace of invocations, in order. -/
def HandlePipelineWithInput1 {C T : Type} (p : Pipeline1 C)
    (inputDecoder : HttpRequest → Except Err T)
    (handler : C → T → Option Responder) (r : HttpRequest) :
    HttpResp × List Call :=
  match p.decoder r with
  | .error err => ((p.options.callContextErrorHandler 1 err) r, [Call.stage 1])
  | .ok val1 =>
    match inputDecoder r with
    | .error err => ((p.options.callInputErrorHandler err) r, [Call.stage 1, Call.inputDec])
    | .ok input =>
      match handler val1 input with
      | none => (⟨204, ""⟩, [Call.stage 1, Call.inputDec, Call.handlerRun])
      | some res => (res r, [Call.stage 1, Call.inputDec, Call.handlerRun])

/-- `HandlePipelineWithInput2` (pipeline.go): run the 2 stage decoders, then the
input decoder, then the business handler, short-circuiting on the first error.
The second component is the trace of invocations, in order. -/
def HandlePipelineWithInput2 {C1 C2 T : Type} (p : Pipeline2 C1 C2)
    (inputDecoder : HttpRequest → Except Err T)
    (handler : C1 → C2 → T → Option Responder) (r : HttpRequest) :
    HttpResp × List Call :=
  match p.p1.decoder r with
  | .error err => ((p.options.callContextErrorHandler 1 err) r, [Call.stage 1])
  | .ok val1 =>
    match p.decoder r val1 with
    | .error err => ((p.options.callContextErrorHandler 2 err) r, [Call.stage 1, Call.stage 2])
    | .ok val2 =>
      match inputDecoder r with
      | .error err => ((p.options.callInputErrorHandler err) r, [Call.stage 1, Call.stage 2, Call.inputDec])
      | .ok input =>
        match handler val1 val2 input with
        | none => (⟨204, ""⟩, [Call.stage 1, Call.stage 2, Call.inputDec, Call.handlerRun])
        | some res => (res r, [Call.stage 1, Call.stage 2, Call.inputDec, Call.handlerRun])

/-- `HandlePipelineWithInput3` (pipeline.go): run the 3 stage decoders, then the
input decoder, then the business handler, short-circuiting on the first error.
The second component is the trace of invocations, in order. -/
def HandlePipelineWithInput3 {C1 C2 C3 T : Type} (p : Pipeline3 C1 C2 C3)
    (inputDecoder : HttpRequest → Except Err T)
    (handler : C1 → C2 → C3 → T → Option Responder) (r : HttpRequest) :
    HttpResp × List Call :=
  match p.p2.p1.decoder r with
  | .error err => ((p.options.callContextErrorHandler 1 err) r, [Call.stage 1])
  | .ok val1 =>
    match p.p2.decoder r val1 with
    | .error err => ((p.options.callContextErrorHandler 2 err) r, [Call.stage 1, Call.stage 2])
    | .ok val2 =>
      match p.decoder r val1 val2 with
      | .error err => ((p.options.callContextErrorHandler 3 err) r, [Call.stage 1, Call.stage 2, Call.stage 3])
      | .ok val3 =>
        match inputDecoder r with
        | .error err => ((p.options.callInputErrorHandler err) r, [Call.stage 1, Call.stage 2, Call.stage 3, Call.inputDec])
        | .ok input =>
          match handler val1 val2 val3 input with
          | none => (⟨204, ""⟩, [Call.stage 1, Call.stage 2, Call.stage 3, Call.inputDec, Call.handlerRun])
          | some res => (res r, [Call.stage 1, Call.stage 2, Call.stage 3, Call.inputDec, Call.handlerRun])

/-- `HandlePipelineWithInput4` (pipeline.go): run the 4 stage decoders, then the
input decoder, then the business handler, short-circuiting on the first error.
The second component is the trace of invocations, in order. -/
def HandlePipelineWithInput4 {C1 C2 C3 C4 T : Type} (p : Pipeline4 C1 C2 C3 C4)
    (inputDecoder : HttpRequest → Except Err T)
    (handler : C1 → C2 → C3 → C4 → T → Option Responder) (r : HttpRequest) :
    HttpResp × List Call :=
  match p.p3.p2.p1.decoder r with
  | .error err => ((p.options.callContextErrorHandler 1 err) r, [Call.stage 1])
  | .ok val1 =>
    match p.p3.p2.decoder r val1 with
    | .error err => ((p.options.callContextErrorHandler 2 err) r, [Call.stage 1, Call.stage 2])
    | .ok val2 =>
      match p.p3.decoder r val1 val2 with
      | .error err => ((p.options.callContextErrorHandler 3 err) r, [Call.stage 1, Call.stage 2, Call.stage 3])
      | .ok val3 =>
        match p.decoder r val1 val2 val3 with
        | .error err => ((p.options.callContextErrorHandler 4 err) r, [Call.stage 1, Call.stage 2, Call.stage 3, Call.stage 4])
        | .ok val4 =>
          match inputDecoder r with
          | .error err => ((p.options.callInputErrorHandler err) r, [Call.stage 1, Call.stage 2, Call.stage 3, Call.stage 4, Call.inputDec])
          | .ok input =>
            match handler val1 val2 val3 val4 input with
            | none => (⟨204, ""⟩, [Call.stage 1, Call.stage 2, Call.stage 3, Call.stage 4, Call.inputDec, Call.handlerRun])
            | some res => (res r, [Call.stage 1, Call.stage 2, Call.stage 3, Call.stage 4, Call.inputDec, Call.handlerRun])

/-- `HandlePipelineWithInput5` (pipeline.go): run the 5 stage decoders, then the
input decoder, then the business handler, short-circuiting on the first error.
The second component is the trace of invocations, in order. -/
def HandlePipelineWithInput5 {C1 C2 C3 C4 C5 T : Type} (p : Pipeline5 C1 C2 C3 C4 C5)
    (inputDecoder : HttpRequest → Except Err T)
    (handler : C1 → C2 → C3 → C4 → C5 → T → Option Responder) (r : HttpRequest) :
    HttpResp × List Call :=
  match p.p4.p3.p2.p1.decoder r with
  | .error err => ((p.options.callContextErrorHandler 1 err) r, [Call.stage 1])
  | .ok val1 =>
    match p.p4.p3.p2.decoder r val1 with
    | .error err => ((p.options.callContextErrorHandler 2 err) r, [Call.stage 1, Call.stage 2])
    | .ok val2 =>
      match p.p4.p3.decoder r val1 val2 with
      | .error err => ((p.options.callContextErrorHandler 3 err) r, [Call.stage 1, Call.stage 2, Call.stage 3])
      | .ok val3 =>
        match p.p4.decoder r val1 val2 val3 with
        | .error err => ((p.options.callContextErrorHandler 4 err) r, [Call.stage 1, Call.stage 2, Call.stage 3, Call.stage 4])
        | .ok val4 =>
          match p.decoder r val1 val2 val3 val4 with
          | .error err => ((p.options.callContextErrorHandler 5 err) r, [Call.stage 1, Call.stage 2, Call.stage 3, Call.stage 4, Call.stage 5])
          | .ok val5 =>
            match inputDecoder r with
            | .error err => ((p.options.callInputErrorHandler err) r, [Call.stage 1, Call.stage 2, Call.stage 3, Call.stage 4, Call.stage 5, Call.inputDec])
            | .ok input =>
              match handler val1 val2 val3 val4 val5 input with
              | none => (⟨204, ""⟩, [Call.stage 1, Call.stage 2, Call.stage 3, Call.stage 4, Call.stage 5, Call.inputDec, Call.handlerRun])
              | some res => (res r, [Call.stage 1, Call.stage 2, Call.stage 3, Call.stage 4, Call.stage 5, Call.inputDec, Call.handlerRun])

/-- `HandlePipelineWithInput6` (pipeline.go): run the 6 stage decoders, then the
input decoder, then the business handler, short-circuiting on the first error.
The second component is the trace of invocations, in order. -/
def HandlePipelineWithInput6 {C1 C2 C3 C4 C5 C6 T : Type} (p : Pipeline6 C1 C2 C3 C4 C5 C6)
    (inputDecoder : HttpRequest → Except Err T)
    (handler : C1 → C2 → C3 → C4 → C5 → C6 → T → Option Responder) (r : HttpRequest) :
    HttpResp × List Call :=
  match p.p5.p4.p3.p2.p1.decoder r with
  | .error err => ((p.options.callContextErrorHandler 1 err) r, [Call.stage 1])
  | .ok val1 =>
    match p.p5.p4.p3.p2.decoder r val1 with
    | .error err => ((p.options.callContextErrorHandler 2 err) r, [Call.stage 1, Call.stage 2])
    | .ok val2 =>
      match p.p5.p4.p3.decoder r val1 val2 with
      | .error err => ((p.options.callContextErrorHandler 3 err) r, [Call.stage 1, Call.stage 2, Call.stage 3])
      | .ok val3 =>
        match p.p5.p4.decoder r val1 val2 val3 with
        | .error err => ((p.options.callContextErrorHandler 4 err) r, [Call.stage 1, Call.stage 2, Call.stage 3, Call.stage 4])
        | .ok val4 =>
          match p.p5.decoder r val1 val2 val3 val4 with
          | .error err => ((p.options.callContextErrorHandler 5 err) r, [Call.stage 1, Call.stage 2, Call.stage 3, Call.stage 4, Call.stage 5])
          | .ok val5 =>
            match p.decoder r val1 val2 val3 val4 val5 with
            | .error err => ((p.options.callContextErrorHandler 6 err) r, [Call.stage 1, Call.stage 2, Call.stage 3, Call.stage 4, Call.stage 5, Call.stage 6])
            | .ok val6 =>
              match inputDecoder r with
              | .error err => ((p.options.callInputErrorHandler err) r, [Call.stage 1, Call.stage 2, Call.stage 3, Call.stage 4, Call.stage 5, Call.stage 6, Call.inputDec])
              | .ok input =>
                match handler val1 val2 val3 val4 val5 val6 input with
                | none => (⟨204, ""⟩, [Call.stage 1, Call.stage 2, Call.stage 3, Call.stage 4, Call.stage 5, Call.stage 6, Call.inputDec, Call.handlerRun])
                | some res => (res r, [Call.stage 1, Call.stage 2, Call.stage 3, Call.stage 4, Call.stage 5, Call.stage 6, Call.inputDec, Call.handlerRun])

/-- `HandlePipelineWithInput7` (pipeline.go): run the 7 stage decoders, then the
input decoder, then the business handler, short-circuiting on the first error.
The second component is the trace of invocations, in order. -/
def HandlePipelineWithInput7 {C1 C2 C3 C4 C5 C6 C7 T : Type} (p : Pipeline7 C1 C2 C3 C4 C5 C6 C7)
    (inputDecoder : HttpRequest → Except Err T)
    (handler : C1 → C2 → C3 → C4 → C5 → C6 → C7 → T → Option Responder) (r : HttpRequest) :
    HttpResp × List Call :=
  match p.p6.p5.p4.p3.p2.p1.decoder r with
  | .error err => ((p.options.callContextErrorHandler 1 err) r, [Call.stage 1])
  | .ok val1 =>
    match p.p6.p5.p4.p3.p2.decoder r val1 with
    | .error err => ((p.options.callContextErrorHandler 2 err) r, [Call.stage 1, Call.stage 2])
    | .ok val2 =>
      match p.p6.p5.p4.p3.decoder r val1 val2 with
      | .error err => ((p.options.callContextErrorHandler 3 err) r, [Call.stage 1, Call.stage 2, Call.stage 3])
      | .ok val3 =>
        match p.p6.p5.p4.decoder r val1 val2 val3 with
        | .error err => ((p.options.callContextErrorHandler 4 err) r, [Call.stage 1, Call.stage 2, Call.stage 3, Call.stage 4])
        | .ok val4 =>
          match p.p6.p5.decoder r val1 val2 val3 val4 with
          | .error err => ((p.options.callContextErrorHandler 5 err) r, [Call.stage 1, Call.stage 2, Call.stage 3, Call.stage 4, Call.stage 5])
          | .ok val5 =>
            match p.p6.decoder r val1 val2 val3 val4 val5 with
            | .error err => ((p.options.callContextErrorHandler 6 err) r, [Call.stage 1, Call.stage 2, Call.stage 3, Call.stage 4, Call.stage 5, Call.stage 6])
            | .ok val6 =>
              match p.decoder r val1 val2 val3 val4 val5 val6 with
              | .error err => ((p.options.callContextErrorHandler 7 err) r, [Call.stage 1, Call.stage 2, Call.stage 3, Call.stage 4, Call.stage 5, Call.stage 6, Call.stage 7])
              | .ok val7 =>
                match inputDecoder r with
                | .error err => ((p.options.callInputErrorHandler err) r, [Call.stage 1, Call.stage 2, Call.stage 3, Call.stage 4, Call.stage 5, Call.stage 6, Call.stage 7, Call.inputDec])
                | .ok input =>
                  match handler val1 val2 val3 val4 val5 val6 val7 input with
                  | none => (⟨204, ""⟩, [Call.stage 1, Call.stage 2, Call.stage 3, Call.stage 4, Call.stage 5, Call.stage 6, Call.stage 7, Call.inputDec, Call.handlerRun])
                  | some res => (res r, [Call.stage 1, Call.stage 2, Call.stage 3, Call.stage 4, Call.stage 5, Call.stage 6, Call.stage 7, Call.inputDec, Call.handlerRun])

/-- `HandlePipelineWithInput8` (pipeline.go): run the 8 stage decoders, then the
input decoder, then the business handler, short-circuiting on the first error.
The second component is the trace of invocations, in order. -/
def HandlePipelineWithInput8 {C1 C2 C3 C4 C5 C6 C7 C8 T : Type} (p : Pipeline8 C1 C2 C3 C4 C5 C6 C7 C8)
    (inputDecoder : HttpRequest → Except Err T)
    (handler : C1 → C2 → C3 → C4 → C5 → C6 → C7 → C8 → T → Option Responder) (r : HttpRequest) :
    HttpResp × List Call :=
  match p.p7.p6.p5.p4.p3.p2.p1.decoder r with
  | .error err => ((p.options.callContextErrorHandler 1 err) r, [Call.stage 1])
  | .ok val1 =>
    match p.p7.p6.p5.p4.p3.p2.decoder r val1 with
    | .error err => ((p.options.callContextErrorHandler 2 err) r, [Call.stage 1, Call.stage 2])
    | .ok val2 =>
      match p.p7.p6.p5.p4.p3.decoder r val1 val2 with
      | .error err => ((p.options.callContextErrorHandler 3 err) r, [Call.stage 1, Call.stage 2, Call.stage 3])
      | .ok val3 =>
        match p.p7.p6.p5.p4.decoder r val1 val2 val3 with
        | .error err => ((p.options.callContextErrorHandler 4 err) r, [Call.stage 1, Call.stage 2, Call.stage 3, Call.stage 4])
        | .ok val4 =>
          match p.p7.p6.p5.decoder r val1 val2 val3 val4 with
          | .error err => ((p.options.callContextErrorHandler 5 err) r, [Call.stage 1, Call.stage 2, Call.stage 3, Call.stage 4, Call.stage 5])
          | .ok val5 =>
            match p.p7.p6.decoder r val1 val2 val3 val4 val5 with
            | .error err => ((p.options.callContextErrorHandler 6 err) r, [Call.stage 1, Call.stage 2, Call.stage 3, Call.stage 4, Call.stage 5, Call.stage 6])
            | .ok val6 =>
              match p.p7.decoder r val1 val2 val3 val4 val5 val6 with
              | .error err => ((p.options.callContextErrorHandler 7 err) r, [Call.stage 1, Call.stage 2, Call.stage 3, Call.stage 4, Call.stage 5, Call.stage 6, Call.stage 7])
              | .ok val7 =>
                match p.decoder r val1 val2 val3 val4 val5 val6 val7 with
                | .error err => ((p.options.callContextErrorHandler 8 err) r, [Call.stage 1, Call.stage 2, Call.stage 3, Call.stage 4, Call.stage 5, Call.stage 6, Call.stage 7, Call.stage 8])
                | .ok val8 =>
                  match inputDecoder r with
                  | .error err => ((p.options.callInputErrorHandler err) r, [Call.stage 1, Call.stage 2, Call.stage 3, Call.stage 4, Call.stage 5, Call.stage 6, Call.stage 7, Call.stage 8, Call.inputDec])
                  | .ok input =>
                    match handler val1 val2 val3 val4 val5 val6 val7 val8 input with
                    | none => (⟨204, ""⟩, [Call.stage 1, Call.stage 2, Call.stage 3, Call.stage 4, Call.stage 5, Call.stage 6, Call.stage 7, Call.stage 8, Call.inputDec, Call.handlerRun])
                    | some res => (res r, [Call.stage 1, Call.stage 2, Call.stage 3, Call.stage 4, Call.stage 5, Call.stage 6, Call.stage 7, Call.stage 8, Call.inputDec, Call.handlerRun])

/-- Stage `k` of the arity-1 pipeline is the first to fail on `r`, with error `e`:
stages before `k` succeed and stage `k` returns a non-nil error. -/
def Pipeline1.failsAt {C : Type} (p : Pipeline1 C) (r : HttpRequest) :
    Nat → Err → Prop
  | 1, e => p.decoder r = Except.error e
  | _, _ => False

/-- Stage `k` of the arity-2 pipeline is the first to fail on `r`, with error `e`:
stages before `k` succeed and stage `k` returns a non-nil error. -/
def Pipeline2.failsAt {C1 C2 : Type} (p : Pipeline2 C1 C2) (r : HttpRequest) :
    Nat → Err → Prop
  | 1, e => p.p1.decoder r = Except.error e
  | 2, e => ∃ c1, p.p1.decoder r = Except.ok c1 ∧ p.decoder r c1 = Except.error e
  | _, _ => False

/-- Stage `k` of the arity-3 pipeline is the first to fail on `r`, with error `e`:
stages before `k` succeed and stage `k` returns a non-nil error. -/
def Pipeline3.failsAt {C1 C2 C3 : Type} (p : Pipeline3 C1 C2 C3) (r : HttpRequest) :
    Nat → Err → Prop
  | 1, e => p.p2.p1.decoder r = Except.error e
  | 2, e => ∃ c1, p.p2.p1.decoder r = Except.ok c1 ∧ p.p2.decoder r c1 = Except.error e
  | 3, e => ∃ c1 c2, p.p2.p1.decoder r = Except.ok c1 ∧ p.p2.decoder r c1 = Except.ok c2 ∧ p.decoder r c1 c2 = Except.error e
  | _, _ => False

/-- Stage `k` of the arity-4 pipeline is the first to fail on `r`, with error `e`:
stages before `k` succeed and stage `k` returns a non-nil error. -/
def Pipeline4.failsAt {C1 C2 C3 C4 : Type} (p : Pipeline4 C1 C2 C3 C4) (r : HttpRequest) :
    Nat → Err → Prop
  | 1, e => p.p3.p2.p1.decoder r = Except.error e
  | 2, e => ∃ c1, p.p3.p2.p1.decoder r = Except.ok c1 ∧ p.p3.p2.decoder r c1 = Except.error e
  | 3, e => ∃ c1 c2, p.p3.p2.p1.decoder r = Except.ok c1 ∧ p.p3.p2.decoder r c1 = Except.ok c2 ∧ p.p3.decoder r c1 c2 = Except.error e
  | 4, e => ∃ c1 c2 c3, p.p3.p2.p1.decoder r = Except.ok c1 ∧ p.p3.p2.decoder r c1 = Except.ok c2 ∧ p.p3.decoder r c1 c2 = Except.ok c3 ∧ p.decoder r c1 c2 c3 = Except.error e
  | _, _ => False

/-- Stage `k` of the arity-5 pipeline is the first to fail on `r`, with error `e`:
stages before `k` succeed and stage `k` returns a non-nil error. -/
def Pipeline5.failsAt {C1 C2 C3 C4 C5 : Type} (p : Pipeline5 C1 C2 C3 C4 C5) (r : HttpRequest) :
    Nat → Err → Prop
  | 1, e => p.p4.p3.p2.p1.decoder r = Except.error e
  | 2, e => ∃ c1, p.p4.p3.p2.p1.decoder r = Except.ok c1 ∧ p.p4.p3.p2.decoder r c1 = Except.error e
  | 3, e => ∃ c1 c2, p.p4.p3.p2.p1.decoder r = Except.ok c1 ∧ p.p4.p3.p2.decoder r c1 = Except.ok c2 ∧ p.p4.p3.decoder r c1 c2 = Except.error e
  | 4, e => ∃ c1 c2 c3, p.p4.p3.p2.p1.decoder r = Except.ok c1 ∧ p.p4.p3.p2.decoder r c1 = Except.ok c2 ∧ p.p4.p3.decoder r c1 c2 = Except.ok c3 ∧ p.p4.decoder r c1 c2 c3 = Except.error e
  | 5, e => ∃ c1 c2 c3 c4, p.p4.p3.p2.p1.decoder r = Except.ok c1 ∧ p.p4.p3.p2.decoder r c1 = Except.ok c2 ∧ p.p4.p3.decoder r c1 c2 = Except.ok c3 ∧ p.p4.decoder r c1 c2 c3 = Except.ok c4 ∧ p.decoder r c1 c2 c3 c4 = Except.error e
  | _, _ => False

/-- Stage `k` of the arity-6 pipeline is the first to fail on `r`, with error `e`:
stages before `k` succeed and stage `k` returns a non-nil error. -/
def Pipeline6.failsAt {C1 C2 C3 C4 C5 C6 : Type} (p : Pipeline6 C1 C2 C3 C4 C5 C6) (r : HttpRequest) :
    Nat → Err → Prop
  | 1, e => p.p5.p4.p3.p2.p1.decoder r = Except.error e
  | 2, e => ∃ c1, p.p5.p4.p3.p2.p1.decoder r = Except.ok c1 ∧ p.p5.p4.p3.p2.decoder r c1 = Except.error e
  | 3, e => ∃ c1 c2, p.p5.p4.p3.p2.p1.decoder r = Except.ok c1 ∧ p.p5.p4.p3.p2.decoder r c1 = Except.ok c2 ∧ p.p5.p4.p3.decoder r c1 c2 = Except.error e
  | 4, e => ∃ c1 c2 c3, p.p5.p4.p3.p2.p1.decoder r = Except.ok c1 ∧ p.p5.p4.p3.p2.decoder r c1 = Except.ok c2 ∧ p.p5.p4.p3.decoder r c1 c2 = Except.ok c3 ∧ p.p5.p4.decoder r c1 c2 c3 = Except.error e
  | 5, e => ∃ c1 c2 c3 c4, p.p5.p4.p3.p2.p1.decoder r = Except.ok c1 ∧ p.p5.p4.p3.p2.decoder r c1 = Except.ok c2 ∧ p.p5.p4.p3.decoder r c1 c2 = Except.ok c3 ∧ p.p5.p4.decoder r c1 c2 c3 = Except.ok c4 ∧ p.p5.decoder r c1 c2 c3 c4 = Except.error e
  | 6, e => ∃ c1 c2 c3 c4 c5, p.p5.p4.p3.p2.p1.decoder r = Except.ok c1 ∧ p.p5.p4.p3.p2.decoder r c1 = Except.ok c2 ∧ p.p5.p4.p3.decoder r c1 c2 = Except.ok c3 ∧ p.p5.p4.decoder r c1 c2 c3 = Except.ok c4 ∧ p.p5.decoder r c1 c2 c3 c4 = Except.ok c5 ∧ p.decoder r c1 c2 c3 c4 c5 = Except.error e
  | _, _ => False

/-- Stage `k` of the arity-7 pipeline is the first to fail on `r`, with error `e`:
stages before `k` succeed and stage `k` returns a non-nil error. -/
def Pipeline7.failsAt {C1 C2 C3 C4 C5 C6 C7 : Type} (p : Pipeline7 C1 C2 C3 C4 C5 C6 C7) (r : HttpRequest) :
    Nat → Err → Prop
  | 1, e => p.p6.p5.p4.p3.p2.p1.decoder r = Except.error e
  | 2, e => ∃ c1, p.p6.p5.p4.p3.p2.p1.decoder r = Except.ok c1 ∧ p.p6.p5.p4.p3.p2.decoder r c1 = Except.error e
  | 3, e => ∃ c1 c2, p.p6.p5.p4.p3.p2.p1.decoder r = Except.ok c1 ∧ p.p6.p5.p4.p3.p2.decoder r c1 = Except.ok c2 ∧ p.p6.p5.p4.p3.decoder r c1 c2 = Except.error e
  | 4, e => ∃ c1 c2 c3, p.p6.p5.p4.p3.p2.p1.decoder r = Except.ok c1 ∧ p.p6.p5.p4.p3.p2.decoder r c1 = Except.ok c2 ∧ p.p6.p5.p4.p3.decoder r c1 c2 = Except.ok c3 ∧ p.p6.p5.p4.decoder r c1 c2 c3 = Except.error e
  | 5, e => ∃ c1 c2 c3 c4, p.p6.p5.p4.p3.p2.p1.decoder r = Except.ok c1 ∧ p.p6.p5.p4.p3.p2.decoder r c1 = Except.ok c2 ∧ p.p6.p5.p4.p3.decoder r c1 c2 = Except.ok c3 ∧ p.p6.p5.p4.decoder r c1 c2 c3 = Except.ok c4 ∧ p.p6.p5.decoder r c1 c2 c3 c4 = Except.error e
  | 6, e => ∃ c1 c2 c3 c4 c5, p.p6.p5.p4.p3.p2.p1.decoder r = Except.ok c1 ∧ p.p6.p5.p4.p3.p2.decoder r c1 = Except.ok c2 ∧ p.p6.p5.p4.p3.decoder r c1 c2 = Except.ok c3 ∧ p.p6.p5.p4.decoder r c1 c2 c3 = Except.ok c4 ∧ p.p6.p5.decoder r c1 c2 c3 c4 = Except.ok c5 ∧ p.p6.decoder r c1 c2 c3 c4 c5 = Except.error e
  | 7, e => ∃ c1 c2 c3 c4 c5 c6, p.p6.p5.p4.p3.p2.p1.decoder r = Except.ok c1 ∧ p.p6.p5.p4.p3.p2.decoder r c1 = Except.ok c2 ∧ p.p6.p5.p4.p3.decoder r c1 c2 = Except.ok c3 ∧ p.p6.p5.p4.decoder r c1 c2 c3 = Except.ok c4 ∧ p.p6.p5.decoder r c1 c2 c3 c4 = Except.ok c5 ∧ p.p6.decoder r c1 c2 c3 c4 c5 = Except.ok c6 ∧ p.decoder r c1 c2 c3 c4 c5 c6 = Except.error e
  | _, _ => False

/-- Stage `k` of the arity-8 pipeline is the first to fail on `r`, with error `e`:
stages before `k` succeed and stage `k` returns a non-nil error. -/
def Pipeline8.failsAt {C1 C2 C3 C4 C5 C6 C7 C8 : Type} (p : Pipeline8 C1 C2 C3 C4 C5 C6 C7 C8) (r : HttpRequest) :
    Nat → Err → Prop
  | 1, e => p.p7.p6.p5.p4.p3.p2.p1.decoder r = Except.error e
  | 2, e => ∃ c1, p.p7.p6.p5.p4.p3.p2.p1.decoder r = Except.ok c1 ∧ p.p7.p6.p5.p4.p3.p2.decoder r c1 = Except.error e
  | 3, e => ∃ c1 c2, p.p7.p6.p5.p4.p3.p2.p1.decoder r = Except.ok c1 ∧ p.p7.p6.p5.p4.p3.p2.decoder r c1 = Except.ok c2 ∧ p.p7.p6.p5.p4.p3.decoder r c1 c2 = Except.error e
  | 4, e => ∃ c1 c2 c3, p.p7.p6.p5.p4.p3.p2.p1.decoder r = Except.ok c1 ∧ p.p7.p6.p5.p4.p3.p2.decoder r c1 = Except.ok c2 ∧ p.p7.p6.p5.p4.p3.decoder r c1 c2 = Except.ok c3 ∧ p.p7.p6.p5.p4.decoder r c1 c2 c3 = Except.error e
  | 5, e => ∃ c1 c2 c3 c4, p.p7.p6.p5.p4.p3.p2.p1.decoder r = Except.ok c1 ∧ p.p7.p6.p5.p4.p3.p2.decoder r c1 = Except.ok c2 ∧ p.p7.p6.p5.p4.p3.decoder r c1 c2 = Except.ok c3 ∧ p.p7.p6.p5.p4.decoder r c1 c2 c3 = Except.ok c4 ∧ p.p7.p6.p5.decoder r c1 c2 c3 c4 = Except.error e
  | 6, e => ∃ c1 c2 c3 c4 c5, p.p7.p6.p5.p4.p3.p2.p1.decoder r = Except.ok c1 ∧ p.p7.p6.p5.p4.p3.p2.decoder r c1 = Except.ok c2 ∧ p.p7.p6.p5.p4.p3.decoder r c1 c2 = Except.ok c3 ∧ p.p7.p6.p5.p4.decoder r c1 c2 c3 = Except.ok c4 ∧ p.p7.p6.p5.decoder r c1 c2 c3 c4 = Except.ok c5 ∧ p.p7.p6.decoder r c1 c2 c3 c4 c5 = Except.error e
  | 7, e => ∃ c1 c2 c3 c4 c5 c6, p.p7.p6.p5.p4.p3.p2.p1.decoder r = Except.ok c1 ∧ p.p7.p6.p5.p4.p3.p2.decoder r c1 = Except.ok c2 ∧ p.p7.p6.p5.p4.p3.decoder r c1 c2 = Except.ok c3 ∧ p.p7.p6.p5.p4.decoder r c1 c2 c3 = Except.ok c4 ∧ p.p7.p6.p5.decoder r c1 c2 c3 c4 = Except.ok c5 ∧ p.p7.p6.decoder r c1 c2 c3 c4 c5 = Except.ok c6 ∧ p.p7.decoder r c1 c2 c3 c4 c5 c6 = Except.error e
  | 8, e => ∃ c1 c2 c3 c4 c5 c6 c7, p.p7.p6.p5.p4.p3.p2.p1.decoder r = Except.ok c1 ∧ p.p7.p6.p5.p4.p3.p2.decoder r c1 = Except.ok c2 ∧ p.p7.p6.p5.p4.p3.decoder r c1 c2 = Except.ok c3 ∧ p.p7.p6.p5.p4.decoder r c1 c2 c3 = Except.ok c4 ∧ p.p7.p6.p5.decoder r c1 c2 c3 c4 = Except.ok c5 ∧ p.p7.p6.decoder r c1 c2 c3 c4 c5 = Except.ok c6 ∧ p.p7.decoder r c1 c2 c3 c4 c5 c6 = Except.ok c7 ∧ p.decoder r c1 c2 c3 c4 c5 c6 c7 = Except.error e
  | _, _ => False

/-! ### Input-as-terminal-stage variant (pipeline_handlers.go, struct-embedding chain)

This snapshot reuses the chained `Pipeline` types above: the input decoder is
wrapped as one more pipeline stage, and construction inherits the base
pipeline's options.  The business handler additionally receives the request's
ambient context, modelled by the request's `ctxToken`. -/

/-- `NewPipelineWithInput1` (struct-embedding variant): wrap the input decoder
as stage 2 of a `Pipeline2`; options are inherited from `p` unless overridden. -/
def NewPipelineWithInput1 {C T : Type} (p : Pipeline1 C)
    (inputDecoder : HttpRequest → Except Err T)
    (options : List (PipelineOptions → PipelineOptions)) : Pipeline2 C T :=
  NewPipeline2 p (fun r _c => inputDecoder r) options

namespace StagedInput

/-- `HandlePipelineWithInput1` (struct-embedding variant): decode the context,
decode the input as the second pipeline stage (reporting its failure through
`InputErrorHandler`), then invoke the handler with the request context. -/
def HandlePipelineWithInput1 {C T : Type} (p : Pipeline1 C)
    (inputDecoder : HttpRequest → Except Err T)
    (handler : Nat → C → T → Option Responder) (r : HttpRequest) :
    HttpResp × List Call :=
  let pipeline := NewPipelineWithInput1 p inputDecoder []
  match pipeline.p1.decoder r with
  | .error err => ((pipeline.options.callContextErrorHandler 1 err) r, [Call.stage 1])
  | .ok val1 =>
    match pipeline.decoder r val1 with
    | .error err =>
      ((pipeline.options.callInputErrorHandler err) r, [Call.stage 1, Call.inputDec])
    | .ok input =>
      match handler r.ctxToken val1 input with
      | none => (⟨204, ""⟩, [Call.stage 1, Call.inputDec, Call.handlerRun])
      | some res => (res r, [Call.stage 1, Call.inputDec, Call.handlerRun])

end StagedInput

namespace Flat

/-! ### Flat-field variant (pipeline_handlers.go, second snapshot)

Pipelines store every stage decoder as a flat field, error handling goes
through nil-checking helpers, and `NewPipelineWithInput1` builds its options
from a fresh empty `PipelineOptions`, discarding the base pipeline's options. -/

/-- `Pipeline1` (flat-field variant): stage decoder stored as `decoder1`. -/
structure Pipeline1 (C : Type) where
  decoder1 : HttpRequest → Except Err C
  options : PipelineOptions

/-- `defaultErrorHandler`: 400 Bad Request with body `fmt.Sprintf("Error: %v", err)`. -/
def defaultErrorHandler (err : Err) : Responder :=
  fun _ => ⟨400, "Error: " ++ err⟩

/-- `handleContextError`: use the configured handler, falling back to the
default when the field is nil.  (A nil `*PipelineOptions` cannot arise here:
every caller passes the address of its pipeline's options.) -/
def handleContextError (options : PipelineOptions) (stage : Nat) (err : Err) : Responder :=
  match options.ContextErrorHandler with
  | none => defaultErrorHandler err
  | some f => f stage err

/-- `handleInputError`: like `handleContextError`, for the input hook. -/
def handleInputError (options : PipelineOptions) (err : Err) : Responder :=
  match options.InputErrorHandler with
  | none => defaultErrorHandler err
  | some f => f err

/-- `PipelineWithInput1` (flat-field variant). -/
structure PipelineWithInput1 (C T : Type) where
  decoder1 : HttpRequest → Except Err C
  decoder2 : HttpRequest → C → Except Err T
  options : PipelineOptions

/-- `NewPipelineWithInput1` (flat-field variant): applies the provided options
to a new empty `PipelineOptions`; `p.options` is not consulted. -/
def NewPipelineWithInput1 {C T : Type} (p : Pipeline1 C)
    (inputDecoder : HttpRequest → Except Err T)
    (options : List (PipelineOptions → PipelineOptions)) : PipelineWithInput1 C T where
  decoder1 := p.decoder1
  decoder2 := fun r _c => inputDecoder r
  options := applyOptions ⟨none, none⟩ options

/-- `HandlePipelineWithInput1` (flat-field variant). -/
def HandlePipelineWithInput1 {C T : Type} (p : Pipeline1 C)
    (inputDecoder : HttpRequest → Except Err T)
    (handler : Nat → C → T → Option Responder) (r : HttpRequest) :
    HttpResp × List Call :=
  let pipeline := NewPipelineWithInput1 p inputDecoder []
  match pipeline.decoder1 r with
  | .error err => ((handleContextError pipeline.options 1 err) r, [Call.stage 1])
  | .ok val1 =>
    match pipeline.decoder2 r val1 with
    | .error err => ((handleInputError pipeline.options err) r, [Call.stage 1, Call.inputDec])
    | .ok input =>
      match handler r.ctxToken val1 input with
      | none => (⟨204, ""⟩, [Call.stage 1, Call.inputDec, Call.handlerRun])
      | some res => (res r, [Call.stage 1, Call.inputDec, Call.handlerRun])

end Flat

/-! ### String helpers for body-content properties -/

/-- `charsStartWith s pat`: the character list `s` begins with `pat`. -/
def charsStartWith : List Char → List Char → Bool
  | _, [] => true
  | [], _ :: _ => false
  | a :: as, b :: bs => a == b && charsStartWith as bs

/-- `strHasSub s pat`: `pat` occurs contiguously somewhere in `s`. -/
def strHasSub : List Char → List Char → Bool
  | [], pat => charsStartWith [] pat
  | a :: t, pat => charsStartWith (a :: t) pat || strHasSub t pat

/-- Substring containment on strings (Go `strings.Contains`). -/
def containsSub (s pat : String) : Bool :=
  strHasSub s.data pat.data

/-- `strings.HasPrefix`. -/
def strStarts (s pre : String) : Bool :=
  charsStartWith s.data pre.data

/-- `strings.TrimPrefix`: drop `pre` from the front of `s` when present. -/
def trimLeading (s pre : String) : String :=
  if strStarts s pre then s.drop pre.length else s

/-! ### Decoder library (header / query / path extractors, Combine2) -/

/-- `HeaderValue(name)`: required header extractor; fails exactly when
`r.Header.Get(name)` is empty. -/
def HeaderValue (name : String) : HttpRequest → Except Err String :=
  fun r =>
    let value := r.headerGet name
    if value = "" then Except.error ("header \"" ++ name ++ "\" not found")
    else Except.ok value

/-- `OptionalHeaderValue(name)`: always succeeds with `r.Header.Get(name)`. -/
def OptionalHeaderValue (name : String) : HttpRequest → Except Err String :=
  fun r => Except.ok (r.headerGet name)

/-- `OptionalBearerToken`: empty string (no error) when the Authorization
header is missing or not of the `Bearer TOKEN` shape. -/
def OptionalBearerToken : HttpRequest → Except Err String :=
  fun r =>
    let auth := r.headerGet "Authorization"
    if auth = "" || !(strStarts auth "Bearer ") then Except.ok ""
    else Except.ok (trimLeading auth "Bearer ")

/-- `QueryParam(name)`: required query-parameter extractor. -/
def QueryParam (name : String) : HttpRequest → Except Err String :=
  fun r =>
    let value := r.queryGet name
    if value = "" then Except.error ("query parameter \"" ++ name ++ "\" not found")
    else Except.ok value

/-- `OptionalQueryParam(name)`: always succeeds with the query value. -/
def OptionalQueryParam (name : String) : HttpRequest → Except Err String :=
  fun r => Except.ok (r.queryGet name)

/-- `PathParam(name)`: required path-parameter extractor. -/
def PathParam (name : String) : HttpRequest → Except Err String :=
  fun r =>
    let value := r.pathGet name
    if value = "" then Except.error ("path parameter \"" ++ name ++ "\" not found")
    else Except.ok value

/-- The anonymous result struct of `Combine2`. -/
structure Combined2 (T1 T2 : Type) where
  V1 : T1
  V2 : T2
deriving Repr, DecidableEq

/-- `Combine2(decoder1, decoder2)`: run the first decoder, then the second,
wrapping either failure; merge the two results into one struct. -/
def Combine2 {T1 T2 : Type} (decoder1 : HttpRequest → Except Err T1)
    (decoder2 : HttpRequest → Except Err T2) : HttpRequest → Except Err (Combined2 T1 T2) :=
  fun r =>
    match decoder1 r with
    | .error err => Except.error ("decoder1 error: " ++ err)
    | .ok v1 =>
      match decoder2 r with
      | .error err => Except.error ("decoder2 error: " ++ err)
      | .ok v2 => Except.ok ⟨v1, v2⟩

namespace Jsonresp

/-! ### jsonresp success responder, over an event-recording response sink

`http.ResponseWriter` is modelled as the ordered list of operations performed
on it, so "the status line is written before the body" and "no partial body"
are directly observable. -/

/-- One operation performed on the response sink. -/
inductive WEvent where
  | setHeader : String → String → WEvent
  | setCookie : String → String → WEvent
  | writeHeader : Nat → WEvent
  | write : String → WEvent
deriving Repr, DecidableEq, BEq

/-- The response sink: recorded events, plus whether body writes fail (an
already-broken connection). -/
structure ResponseWriter where
  events : List WEvent
  failWrites : Bool
deriving Repr, DecidableEq

/-- `w.Header().Set(key, value)` / `Add`: recorded as one header event. -/
def ResponseWriter.headerSet (w : ResponseWriter) (key value : String) : ResponseWriter :=
  { w with events := w.events ++ [WEvent.setHeader key value] }

/-- `http.SetCookie(w, cookie)`. -/
def ResponseWriter.addCookie (w : ResponseWriter) (name value : String) : ResponseWriter :=
  { w with events := w.events ++ [WEvent.setCookie name value] }

/-- `w.WriteHeader(status)`: the status line. -/
def ResponseWriter.writeHeaderLine (w : ResponseWriter) (status : Nat) : ResponseWriter :=
  { w with events := w.events ++ [WEvent.writeHeader status] }

/-- `w.Write(b)`: body bytes; returns a non-nil error when the sink fails. -/
def ResponseWriter.writeBody (w : ResponseWriter) (s : String) :
    ResponseWriter × Option Err :=
  if w.failWrites then (w, some "write failed")
  else ({ w with events := w.events ++ [WEvent.write s] }, none)

/-- Modelled from the spec: `httphandler.WriteInternalServerError` is declared
in repository code that is not under `src/` (only its callers appear there).
Per the spec (§4.5, §7), a serialization or body-write failure falls back to
an internal-error status: the helper writes the 500 status line and a fixed
error body; the optional logger is purely observational and is omitted. -/
def WriteInternalServerError (w : ResponseWriter) : ResponseWriter :=
  { w with events := w.events ++ [WEvent.writeHeader 500, WEvent.write "Internal Server Error"] }

/-- `writeJSON` (jsonresp/success.go).  JSON encoding is abstracted by the
`marshal` argument standing for `json.NewEncoder(&buf).Encode(v)`: the body is
fully encoded into a buffer before anything is written to the sink.  Returns
the bytes handed to the logger (`nil` when a fallback occurred). -/
def writeJSON {T : Type} (marshal : T → Except Err String) (w : ResponseWriter)
    (v : T) (status : Nat) : ResponseWriter × Option String :=
  let w1 := w.headerSet "Content-Type" "application/json"
  match marshal v with
  | .error _ => (WriteInternalServerError w1, none)
  | .ok buf =>
    let w2 := w1.writeHeaderLine status
    match w2.writeBody buf with
    | (w3, some _) => (WriteInternalServerError w3, none)
    | (w3, none) => (w3, some buf)

/-- `successResponder` (jsonresp/success.go); the logger field is omitted
(purely observational). -/
structure SuccessResponder (T : Type) where
  header : List (String × String)
  statusCode : Nat
  cookies : List (String × String)
  data : T

/-- `Success(data)`: default status 200 OK. -/
def Success {T : Type} (data : T) : SuccessResponder T :=
  { header := [], statusCode := 200, cookies := [], data := data }

/-- `successResponder.Respond`: set cookies, add custom headers, then
`writeJSON`; the trailing `LogResponse` is observational only. -/
def SuccessResponder.Respond {T : Type} (marshal : T → Except Err String)
    (res : SuccessResponder T) (w : ResponseWriter) : ResponseWriter × Option String :=
  let w1 := res.cookies.foldl (fun acc c => acc.addCookie c.1 c.2) w
  let w2 := res.header.foldl (fun acc kv => acc.headerSet kv.1 kv.2) w1
  writeJSON marshal w2 res.data res.statusCode

end Jsonresp

/-! ### Helper lemmas: per-arity behaviour of the pipeline.go handlers -/

/-- If stage `k` of an arity-1 pipeline fails, the handler renders exactly the
context-error policy at index `k` and stops after invoking stages `1..k`. -/
theorem handle1_contextFail {C T : Type} (p : Pipeline1 C)
    (i : HttpRequest → Except Err T) (h : C → T → Option Responder)
    (r : HttpRequest) (k : Nat) (e : Err) (ceh : Nat → Err → Responder)
    (hopt : p.options.ContextErrorHandler = some ceh)
    (hfail : p.failsAt r k e) :
    HandlePipelineWithInput1 p i h r = ((ceh k e) r, stageTrace k) := by
  match k with
  | 0 => exact False.elim hfail
  | 1 =>
    have h1 : p.decoder r = Except.error e := hfail
    simp [HandlePipelineWithInput1, h1, PipelineOptions.callContextErrorHandler, hopt,
      stageTrace]
  | j + 2 => exact False.elim hfail

/-- If all 1 stage decoder succeed but the input decoder fails, the handler
renders exactly the input-error policy and never invokes the business handler. -/
theorem handle1_inputFail {C T : Type} (p : Pipeline1 C)
    (i : HttpRequest → Except Err T) (h : C → T → Option Responder)
    (r : HttpRequest) (c1 : C) (e : Err)
    (ieh : Err → Responder)
    (hopt : p.options.InputErrorHandler = some ieh)
    (h1 : p.decoder r = Except.ok c1)
    (hin : i r = Except.error e) :
    HandlePipelineWithInput1 p i h r = ((ieh e) r, stageTrace 1 ++ [Call.inputDec]) := by
  simp [HandlePipelineWithInput1, h1, hin, PipelineOptions.callInputErrorHandler, hopt,
    stageTrace]

/-- If all 1 stage decoder and the input decoder succeed, the handler is
invoked once with the decoded values in stage order followed by the input, and
its result is rendered (nil meaning 204 No Content). -/
theorem handle1_success {C T : Type} (p : Pipeline1 C)
    (i : HttpRequest → Except Err T) (h : C → T → Option Responder)
    (r : HttpRequest) (c1 : C) (t : T)
    (h1 : p.decoder r = Except.ok c1)
    (hin : i r = Except.ok t) :
    HandlePipelineWithInput1 p i h r =
      (renderResult (h c1 t) r, stageTrace 1 ++ [Call.inputDec, Call.handlerRun]) := by
  cases hres : h c1 t <;>
    simp [HandlePipelineWithInput1, h1, hin, hres, renderResult, stageTrace]

/-- If stage `k` of an arity-2 pipeline fails, the handler renders exactly the
context-error policy at index `k` and stops after invoking stages `1..k`. -/
theorem handle2_contextFail {C1 C2 T : Type} (p : Pipeline2 C1 C2)
    (i : HttpRequest → Except Err T) (h : C1 → C2 → T → Option Responder)
    (r : HttpRequest) (k : Nat) (e : Err) (ceh : Nat → Err → Responder)
    (hopt : p.options.ContextErrorHandler = some ceh)
    (hfail : p.failsAt r k e) :
    HandlePipelineWithInput2 p i h r = ((ceh k e) r, stageTrace k) := by
  match k with
  | 0 => exact False.elim hfail
  | 1 =>
    have h1 : p.p1.decoder r = Except.error e := hfail
    simp [HandlePipelineWithInput2, h1, PipelineOptions.callContextErrorHandler, hopt,
      stageTrace]
  | 2 =>
    obtain ⟨c1, h1, h2⟩ := hfail
    simp [HandlePipelineWithInput2, h1, h2, PipelineOptions.callContextErrorHandler, hopt,
      stageTrace]
  | j + 3 => exact False.elim hfail

/-- If all 2 stage decoders succeed but the input decoder fails, the handler
renders exactly the input-error policy and never invokes the business handler. -/
theorem handle2_inputFail {C1 C2 T : Type} (p : Pipeline2 C1 C2)
    (i : HttpRequest → Except Err T) (h : C1 → C2 → T → Option Responder)
    (r : HttpRequest) (c1 : C1) (c2 : C2) (e : Err)
    (ieh : Err → Responder)
    (hopt : p.options.InputErrorHandler = some ieh)
    (h1 : p.p1.decoder r = Except.ok c1)
    (h2 : p.decoder r c1 = Except.ok c2)
    (hin : i r = Except.error e) :
    HandlePipelineWithInput2 p i h r = ((ieh e) r, stageTrace 2 ++ [Call.inputDec]) := by
  simp [HandlePipelineWithInput2, h1, h2, hin, PipelineOptions.callInputErrorHandler, hopt,
    stageTrace]

/-- If all 2 stage decoders and the input decoder succeed, the handler is
invoked once with the decoded values in stage order followed by the input, and
its result is rendered (nil meaning 204 No Content). -/
theorem handle2_success {C1 C2 T : Type} (p : Pipeline2 C1 C2)
    (i : HttpRequest → Except Err T) (h : C1 → C2 → T → Option Responder)
    (r : HttpRequest) (c1 : C1) (c2 : C2) (t : T)
    (h1 : p.p1.decoder r = Except.ok c1)
    (h2 : p.decoder r c1 = Except.ok c2)
    (hin : i r = Except.ok t) :
    HandlePipelineWithInput2 p i h r =
      (renderResult (h c1 c2 t) r, stageTrace 2 ++ [Call.inputDec, Call.handlerRun]) := by
  cases hres : h c1 c2 t <;>
    simp [HandlePipelineWithInput2, h1, h2, hin, hres, renderResult, stageTrace]

/-- If stage `k` of an arity-3 pipeline fails, the handler renders exactly the
context-error policy at index `k` and stops after invoking stages `1..k`. -/
theorem handle3_contextFail {C1 C2 C3 T : Type} (p : Pipeline3 C1 C2 C3)
    (i : HttpRequest → Except Err T) (h : C1 → C2 → C3 → T → Option Responder)
    (r : HttpRequest) (k : Nat) (e : Err) (ceh : Nat → Err → Responder)
    (hopt : p.options.ContextErrorHandler = some ceh)
    (hfail : p.failsAt r k e) :
    HandlePipelineWithInput3 p i h r = ((ceh k e) r, stageTrace k) := by
  match k with
  | 0 => exact False.elim hfail
  | 1 =>
    have h1 : p.p2.p1.decoder r = Except.error e := hfail
    simp [HandlePipelineWithInput3, h1, PipelineOptions.callContextErrorHandler, hopt,
      stageTrace]
  | 2 =>
    obtain ⟨c1, h1, h2⟩ := hfail
    simp [HandlePipelineWithInput3, h1, h2, PipelineOptions.callContextErrorHandler, hopt,
      stageTrace]
  | 3 =>
    obtain ⟨c1, c2, h1, h2, h3⟩ := hfail
    simp [HandlePipelineWithInput3, h1, h2, h3, PipelineOptions.callContextErrorHandler, hopt,
      stageTrace]
  | j + 4 => exact False.elim hfail

/-- If all 3 stage decoders succeed but the input decoder fails, the handler
renders exactly the input-error policy and never invokes the business handler. -/
theorem handle3_inputFail {C1 C2 C3 T : Type} (p : Pipeline3 C1 C2 C3)
    (i : HttpRequest → Except Err T) (h : C1 → C2 → C3 → T → Option Responder)
    (r : HttpRequest) (c1 : C1) (c2 : C2) (c3 : C3) (e : Err)
    (ieh : Err → Responder)
    (hopt : p.options.InputErrorHandler = some ieh)
    (h1 : p.p2.p1.decoder r = Except.ok c1)
    (h2 : p.p2.decoder r c1 = Except.ok c2)
    (h3 : p.decoder r c1 c2 = Except.ok c3)
    (hin : i r = Except.error e) :
    HandlePipelineWithInput3 p i h r = ((ieh e) r, stageTrace 3 ++ [Call.inputDec]) := by
  simp [HandlePipelineWithInput3, h1, h2, h3, hin, PipelineOptions.callInputErrorHandler, hopt,
    stageTrace]

/-- If all 3 stage decoders and the input decoder succeed, the handler is
invoked once with the decoded values in stage order followed by the input, and
its result is rendered (nil meaning 204 No Content). -/
theorem handle3_success {C1 C2 C3 T : Type} (p : Pipeline3 C1 C2 C3)
    (i : HttpRequest → Except Err T) (h : C1 → C2 → C3 → T → Option Responder)
    (r : HttpRequest) (c1 : C1) (c2 : C2) (c3 : C3) (t : T)
    (h1 : p.p2.p1.decoder r = Except.ok c1)
    (h2 : p.p2.decoder r c1 = Except.ok c2)
    (h3 : p.decoder r c1 c2 = Except.ok c3)
    (hin : i r = Except.ok t) :
    HandlePipelineWithInput3 p i h r =
      (renderResult (h c1 c2 c3 t) r, stageTrace 3 ++ [Call.inputDec, Call.handlerRun]) := by
  cases hres : h c1 c2 c3 t <;>
    simp [HandlePipelineWithInput3, h1, h2, h3, hin, hres, renderResult, stageTrace]

/-- If stage `k` of an arity-4 pipeline fails, the handler renders exactly the
context-error policy at index `k` and stops after invoking stages `1..k`. -/
theorem handle4_contextFail {C1 C2 C3 C4 T : Type} (p : Pipeline4 C1 C2 C3 C4)
    (i : HttpRequest → Except Err T) (h : C1 → C2 → C3 → C4 → T → Option Responder)
    (r : HttpRequest) (k : Nat) (e : Err) (ceh : Nat → Err → Responder)
    (hopt : p.options.ContextErrorHandler = some ceh)
    (hfail : p.failsAt r k e) :
    HandlePipelineWithInput4 p i h r = ((ceh k e) r, stageTrace k) := by
  match k with
  | 0 => exact False.elim hfail
  | 1 =>
    have h1 : p.p3.p2.p1.decoder r = Except.error e := hfail
    simp [HandlePipelineWithInput4, h1, PipelineOptions.callContextErrorHandler, hopt,
      stageTrace]
  | 2 =>
    obtain ⟨c1, h1, h2⟩ := hfail
    simp [HandlePipelineWithInput4, h1, h2, PipelineOptions.callContextErrorHandler, hopt,
      stageTrace]
  | 3 =>
    obtain ⟨c1, c2, h1, h2, h3⟩ := hfail
    simp [HandlePipelineWithInput4, h1, h2, h3, PipelineOptions.callContextErrorHandler, hopt,
      stageTrace]
  | 4 =>
    obtain ⟨c1, c2, c3, h1, h2, h3, h4⟩ := hfail
    simp [HandlePipelineWithInput4, h1, h2, h3, h4, PipelineOptions.callContextErrorHandler, hopt,
      stageTrace]
  | j + 5 => exact False.elim hfail

/-- If all 4 stage decoders succeed but the input decoder fails, the handler
renders exactly the input-error policy and never invokes the business handler. -/
theorem handle4_inputFail {C1 C2 C3 C4 T : Type} (p : Pipeline4 C1 C2 C3 C4)
    (i : HttpRequest → Except Err T) (h : C1 → C2 → C3 → C4 → T → Option Responder)
    (r : HttpRequest) (c1 : C1) (c2 : C2) (c3 : C3) (c4 : C4) (e : Err)
    (ieh : Err → Responder)
    (hopt : p.options.InputErrorHandler = some ieh)
    (h1 : p.p3.p2.p1.decoder r = Except.ok c1)
    (h2 : p.p3.p2.decoder r c1 = Except.ok c2)
    (h3 : p.p3.decoder r c1 c2 = Except.ok c3)
    (h4 : p.decoder r c1 c2 c3 = Except.ok c4)
    (hin : i r = Except.error e) :
    HandlePipelineWithInput4 p i h r = ((ieh e) r, stageTrace 4 ++ [Call.inputDec]) := by
  simp [HandlePipelineWithInput4, h1, h2, h3, h4, hin, PipelineOptions.callInputErrorHandler, hopt,
    stageTrace]

/-- If all 4 stage decoders and the input decoder succeed, the handler is
invoked once with the decoded values in stage order followed by the input, and
its result is rendered (nil meaning 204 No Content). -/
theorem handle4_success {C1 C2 C3 C4 T : Type} (p : Pipeline4 C1 C2 C3 C4)
    (i : HttpRequest → Except Err T) (h : C1 → C2 → C3 → C4 → T → Option Responder)
    (r : HttpRequest) (c1 : C1) (c2 : C2) (c3 : C3) (c4 : C4) (t : T)
    (h1 : p.p3.p2.p1.decoder r = Except.ok c1)
    (h2 : p.p3.p2.decoder r c1 = Except.ok c2)
    (h3 : p.p3.decoder r c1 c2 = Except.ok c3)
    (h4 : p.decoder r c1 c2 c3 = Except.ok c4)
    (hin : i r = Except.ok t) :
    HandlePipelineWithInput4 p i h r =
      (renderResult (h c1 c2 c3 c4 t) r, stageTrace 4 ++ [Call.inputDec, Call.handlerRun]) := by
  cases hres : h c1 c2 c3 c4 t <;>
    simp [HandlePipelineWithInput4, h1, h2, h3, h4, hin, hres, renderResult, stageTrace]

/-- If stage `k` of an arity-5 pipeline fails, the handler renders exactly the
context-error policy at index `k` and stops after invoking stages `1..k`. -/
theorem handle5_contextFail {C1 C2 C3 C4 C5 T : Type} (p : Pipeline5 C1 C2 C3 C4 C5)
    (i : HttpRequest → Except Err T) (h : C1 → C2 → C3 → C4 → C5 → T → Option Responder)
    (r : HttpRequest) (k : Nat) (e : Err) (ceh : Nat → Err → Responder)
    (hopt : p.options.ContextErrorHandler = some ceh)
    (hfail : p.failsAt r k e) :
    HandlePipelineWithInput5 p i h r = ((ceh k e) r, stageTrace k) := by
  match k with
  | 0 => exact False.elim hfail
  | 1 =>
    have h1 : p.p4.p3.p2.p1.decoder r = Except.error e := hfail
    simp [HandlePipelineWithInput5, h1, PipelineOptions.callContextErrorHandler, hopt,
      stageTrace]
  | 2 =>
    obtain ⟨c1, h1, h2⟩ := hfail
    simp [HandlePipelineWithInput5, h1, h2, PipelineOptions.callContextErrorHandler, hopt,
      stageTrace]
  | 3 =>
    obtain ⟨c1, c2, h1, h2, h3⟩ := hfail
    simp [HandlePipelineWithInput5, h1, h2, h3, PipelineOptions.callContextErrorHandler, hopt,
      stageTrace]
  | 4 =>
    obtain ⟨c1, c2, c3, h1, h2, h3, h4⟩ := hfail
    simp [HandlePipelineWithInput5, h1, h2, h3, h4, PipelineOptions.callContextErrorHandler, hopt,
      stageTrace]
  | 5 =>
    obtain ⟨c1, c2, c3, c4, h1, h2, h3, h4, h5⟩ := hfail
    simp [HandlePipelineWithInput5, h1, h2, h3, h4, h5, PipelineOptions.callContextErrorHandler, hopt,
      stageTrace]
  | j + 6 => exact False.elim hfail

/-- If all 5 stage decoders succeed but the input decoder fails, the handler
renders exactly the input-error policy and never invokes the business handler. -/
theorem handle5_inputFail {C1 C2 C3 C4 C5 T : Type} (p : Pipeline5 C1 C2 C3 C4 C5)
    (i : HttpRequest → Except Err T) (h : C1 → C2 → C3 → C4 → C5 → T → Option Responder)
    (r : HttpRequest) (c1 : C1) (c2 : C2) (c3 : C3) (c4 : C4) (c5 : C5) (e : Err)
    (ieh : Err → Responder)
    (hopt : p.options.InputErrorHandler = some ieh)
    (h1 : p.p4.p3.p2.p1.decoder r = Except.ok c1)
    (h2 : p.p4.p3.p2.decoder r c1 = Except.ok c2)
    (h3 : p.p4.p3.decoder r c1 c2 = Except.ok c3)
    (h4 : p.p4.decoder r c1 c2 c3 = Except.ok c4)
    (h5 : p.decoder r c1 c2 c3 c4 = Except.ok c5)
    (hin : i r = Except.error e) :
    HandlePipelineWithInput5 p i h r = ((ieh e) r, stageTrace 5 ++ [Call.inputDec]) := by
  simp [HandlePipelineWithInput5, h1, h2, h3, h4, h5, hin, PipelineOptions.callInputErrorHandler, hopt,
    stageTrace]

/-- If all 5 stage decoders and the input decoder succeed, the handler is
invoked once with the decoded values in stage order followed by the input, and
its result is rendered (nil meaning 204 No Content). -/
theorem handle5_success {C1 C2 C3 C4 C5 T : Type} (p : Pipeline5 C1 C2 C3 C4 C5)
    (i : HttpRequest → Except Err T) (h : C1 → C2 → C3 → C4 → C5 → T → Option Responder)
    (r : HttpRequest) (c1 : C1) (c2 : C2) (c3 : C3) (c4 : C4) (c5 : C5) (t : T)
    (h1 : p.p4.p3.p2.p1.decoder r = Except.ok c1)
    (h2 : p.p4.p3.p2.decoder r c1 = Except.ok c2)
    (h3 : p.p4.p3.decoder r c1 c2 = Except.ok c3)
    (h4 : p.p4.decoder r c1 c2 c3 = Except.ok c4)
    (h5 : p.decoder r c1 c2 c3 c4 = Except.ok c5)
    (hin : i r = Except.ok t) :
    HandlePipelineWithInput5 p i h r =
      (renderResult (h c1 c2 c3 c4 c5 t) r, stageTrace 5 ++ [Call.inputDec, Call.handlerRun]) := by
  cases hres : h c1 c2 c3 c4 c5 t <;>
    simp [HandlePipelineWithInput5, h1, h2, h3, h4, h5, hin, hres, renderResult, stageTrace]

/-- If stage `k` of an arity-6 pipeline fails, the handler renders exactly the
context-error policy at index `k` and stops after invoking stages `1..k`. -/
theorem handle6_contextFail {C1 C2 C3 C4 C5 C6 T : Type} (p : Pipeline6 C1 C2 C3 C4 C5 C6)
    (i : HttpRequest → Except Err T) (h : C1 → C2 → C3 → C4 → C5 → C6 → T → Option Responder)
    (r : HttpRequest) (k : Nat) (e : Err) (ceh : Nat → Err → Responder)
    (hopt : p.options.ContextErrorHandler = some ceh)
    (hfail : p.failsAt r k e) :
    HandlePipelineWithInput6 p i h r = ((ceh k e) r, stageTrace k) := by
  match k with
  | 0 => exact False.elim hfail
  | 1 =>
    have h1 : p.p5.p4.p3.p2.p1.decoder r = Except.error e := hfail
    simp [HandlePipelineWithInput6, h1, PipelineOptions.callContextErrorHandler, hopt,
      stageTrace]
  | 2 =>
    obtain ⟨c1, h1, h2⟩ := hfail
    simp [HandlePipelineWithInput6, h1, h2, PipelineOptions.callContextErrorHandler, hopt,
      stageTrace]
  | 3 =>
    obtain ⟨c1, c2, h1, h2, h3⟩ := hfail
    simp [HandlePipelineWithInput6, h1, h2, h3, PipelineOptions.callContextErrorHandler, hopt,
      stageTrace]
  | 4 =>
    obtain ⟨c1, c2, c3, h1, h2, h3, h4⟩ := hfail
    simp [HandlePipelineWithInput6, h1, h2, h3, h4, PipelineOptions.callContextErrorHandler, hopt,
      stageTrace]
  | 5 =>
    obtain ⟨c1, c2, c3, c4, h1, h2, h3, h4, h5⟩ := hfail
    simp [HandlePipelineWithInput6, h1, h2, h3, h4, h5, PipelineOptions.callContextErrorHandler, hopt,
      stageTrace]
  | 6 =>
    obtain ⟨c1, c2, c3, c4, c5, h1, h2, h3, h4, h5, h6⟩ := hfail
    simp [HandlePipelineWithInput6, h1, h2, h3, h4, h5, h6, PipelineOptions.callContextErrorHandler, hopt,
      stageTrace]
  | j + 7 => exact False.elim hfail

/-- If all 6 stage decoders succeed but the input decoder fails, the handler
renders exactly the input-error policy and never invokes the business handler. -/
theorem handle6_inputFail {C1 C2 C3 C4 C5 C6 T : Type} (p : Pipeline6 C1 C2 C3 C4 C5 C6)
    (i : HttpRequest → Except Err T) (h : C1 → C2 → C3 → C4 → C5 → C6 → T → Option Responder)
    (r : HttpRequest) (c1 : C1) (c2 : C2) (c3 : C3) (c4 : C4) (c5 : C5) (c6 : C6) (e : Err)
    (ieh : Err → Responder)
    (hopt : p.options.InputErrorHandler = some ieh)
    (h1 : p.p5.p4.p3.p2.p1.decoder r = Except.ok c1)
    (h2 : p.p5.p4.p3.p2.decoder r c1 = Except.ok c2)
    (h3 : p.p5.p4.p3.decoder r c1 c2 = Except.ok c3)
    (h4 : p.p5.p4.decoder r c1 c2 c3 = Except.ok c4)
    (h5 : p.p5.decoder r c1 c2 c3 c4 = Except.ok c5)
    (h6 : p.decoder r c1 c2 c3 c4 c5 = Except.ok c6)
    (hin : i r = Except.error e) :
    HandlePipelineWithInput6 p i h r = ((ieh e) r, stageTrace 6 ++ [Call.inputDec]) := by
  simp [HandlePipelineWithInput6, h1, h2, h3, h4, h5, h6, hin, PipelineOptions.callInputErrorHandler, hopt,
    stageTrace]

/-- If all 6 stage decoders and the input decoder succeed, the handler is
invoked once with the decoded values in stage order followed by the input, and
its result is rendered (nil meaning 204 No Content). -/
theorem handle6_success {C1 C2 C3 C4 C5 C6 T : Type} (p : Pipeline6 C1 C2 C3 C4 C5 C6)
    (i : HttpRequest → Except Err T) (h : C1 → C2 → C3 → C4 → C5 → C6 → T → Option Responder)
    (r : HttpRequest) (c1 : C1) (c2 : C2) (c3 : C3) (c4 : C4) (c5 : C5) (c6 : C6) (t : T)
    (h1 : p.p5.p4.p3.p2.p1.decoder r = Except.ok c1)
    (h2 : p.p5.p4.p3.p2.decoder r c1 = Except.ok c2)
    (h3 : p.p5.p4.p3.decoder r c1 c2 = Except.ok c3)
    (h4 : p.p5.p4.decoder r c1 c2 c3 = Except.ok c4)
    (h5 : p.p5.decoder r c1 c2 c3 c4 = Except.ok c5)
    (h6 : p.decoder r c1 c2 c3 c4 c5 = Except.ok c6)
    (hin : i r = Except.ok t) :
    HandlePipelineWithInput6 p i h r =
      (renderResult (h c1 c2 c3 c4 c5 c6 t) r, stageTrace 6 ++ [Call.inputDec, Call.handlerRun]) := by
  cases hres : h c1 c2 c3 c4 c5 c6 t <;>
    simp [HandlePipelineWithInput6, h1, h2, h3, h4, h5, h6, hin, hres, renderResult, stageTrace]

/-- If stage `k` of an arity-7 pipeline fails, the handler renders exactly the
context-error policy at index `k` and stops after invoking stages `1..k`. -/
theorem handle7_contextFail {C1 C2 C3 C4 C5 C6 C7 T : Type} (p : Pipeline7 C1 C2 C3 C4 C5 C6 C7)
    (i : HttpRequest → Except Err T) (h : C1 → C2 → C3 → C4 → C5 → C6 → C7 → T → Option Responder)
    (r : HttpRequest) (k : Nat) (e : Err) (ceh : Nat → Err → Responder)
    (hopt : p.options.ContextErrorHandler = some ceh)
    (hfail : p.failsAt r k e) :
    HandlePipelineWithInput7 p i h r = ((ceh k e) r, stageTrace k) := by
  match k with
  | 0 => exact False.elim hfail
  | 1 =>
    have h1 : p.p6.p5.p4.p3.p2.p1.decoder r = Except.error e := hfail
    simp [HandlePipelineWithInput7, h1, PipelineOptions.callContextErrorHandler, hopt,
      stageTrace]
  | 2 =>
    obtain ⟨c1, h1, h2⟩ := hfail
    simp [HandlePipelineWithInput7, h1, h2, PipelineOptions.callContextErrorHandler, hopt,
      stageTrace]
  | 3 =>
    obtain ⟨c1, c2, h1, h2, h3⟩ := hfail
    simp [HandlePipelineWithInput7, h1, h2, h3, PipelineOptions.callContextErrorHandler, hopt,
      stageTrace]
  | 4 =>
    obtain ⟨c1, c2, c3, h1, h2, h3, h4⟩ := hfail
    simp [HandlePipelineWithInput7, h1, h2, h3, h4, PipelineOptions.callContextErrorHandler, hopt,
      stageTrace]
  | 5 =>
    obtain ⟨c1, c2, c3, c4, h1, h2, h3, h4, h5⟩ := hfail
    simp [HandlePipelineWithInput7, h1, h2, h3, h4, h5, PipelineOptions.callContextErrorHandler, hopt,
      stageTrace]
  | 6 =>
    obtain ⟨c1, c2, c3, c4, c5, h1, h2, h3, h4, h5, h6⟩ := hfail
    simp [HandlePipelineWithInput7, h1, h2, h3, h4, h5, h6, PipelineOptions.callContextErrorHandler, hopt,
      stageTrace]
  | 7 =>
    obtain ⟨c1, c2, c3, c4, c5, c6, h1, h2, h3, h4, h5, h6, h7⟩ := hfail
    simp [HandlePipelineWithInput7, h1, h2, h3, h4, h5, h6, h7, PipelineOptions.callContextErrorHandler, hopt,
      stageTrace]
  | j + 8 => exact False.elim hfail

/-- If all 7 stage decoders succeed but the input decoder fails, the handler
renders exactly the input-error policy and never invokes the business handler. -/
theorem handle7_inputFail {C1 C2 C3 C4 C5 C6 C7 T : Type} (p : Pipeline7 C1 C2 C3 C4 C5 C6 C7)
    (i : HttpRequest → Except Err T) (h : C1 → C2 → C3 → C4 → C5 → C6 → C7 → T → Option Responder)
    (r : HttpRequest) (c1 : C1) (c2 : C2) (c3 : C3) (c4 : C4) (c5 : C5) (c6 : C6) (c7 : C7) (e : Err)
    (ieh : Err → Responder)
    (hopt : p.options.InputErrorHandler = some ieh)
    (h1 : p.p6.p5.p4.p3.p2.p1.decoder r = Except.ok c1)
    (h2 : p.p6.p5.p4.p3.p2.decoder r c1 = Except.ok c2)
    (h3 : p.p6.p5.p4.p3.decoder r c1 c2 = Except.ok c3)
    (h4 : p.p6.p5.p4.decoder r c1 c2 c3 = Except.ok c4)
    (h5 : p.p6.p5.decoder r c1 c2 c3 c4 = Except.ok c5)
    (h6 : p.p6.decoder r c1 c2 c3 c4 c5 = Except.ok c6)
    (h7 : p.decoder r c1 c2 c3 c4 c5 c6 = Except.ok c7)
    (hin : i r = Except.error e) :
    HandlePipelineWithInput7 p i h r = ((ieh e) r, stageTrace 7 ++ [Call.inputDec]) := by
  simp [HandlePipelineWithInput7, h1, h2, h3, h4, h5, h6, h7, hin, PipelineOptions.callInputErrorHandler, hopt,
    stageTrace]

/-- If all 7 stage decoders and the input decoder succeed, the handler is
invoked once with the decoded values in stage order followed by the input, and
its result is rendered (nil meaning 204 No Content). -/
theorem handle7_success {C1 C2 C3 C4 C5 C6 C7 T : Type} (p : Pipeline7 C1 C2 C3 C4 C5 C6 C7)
    (i : HttpRequest → Except Err T) (h : C1 → C2 → C3 → C4 → C5 → C6 → C7 → T → Option Responder)
    (r : HttpRequest) (c1 : C1) (c2 : C2) (c3 : C3) (c4 : C4) (c5 : C5) (c6 : C6) (c7 : C7) (t : T)
    (h1 : p.p6.p5.p4.p3.p2.p1.decoder r = Except.ok c1)
    (h2 : p.p6.p5.p4.p3.p2.decoder r c1 = Except.ok c2)
    (h3 : p.p6.p5.p4.p3.decoder r c1 c2 = Except.ok c3)
    (h4 : p.p6.p5.p4.decoder r c1 c2 c3 = Except.ok c4)
    (h5 : p.p6.p5.decoder r c1 c2 c3 c4 = Except.ok c5)
    (h6 : p.p6.decoder r c1 c2 c3 c4 c5 = Except.ok c6)
    (h7 : p.decoder r c1 c2 c3 c4 c5 c6 = Except.ok c7)
    (hin : i r = Except.ok t) :
    HandlePipelineWithInput7 p i h r =
      (renderResult (h c1 c2 c3 c4 c5 c6 c7 t) r, stageTrace 7 ++ [Call.inputDec, Call.handlerRun]) := by
  cases hres : h c1 c2 c3 c4 c5 c6 c7 t <;>
    simp [HandlePipelineWithInput7, h1, h2, h3, h4, h5, h6, h7, hin, hres, renderResult, stageTrace]

/-- If stage `k` of an arity-8 pipeline fails, the handler renders exactly the
context-error policy at index `k` and stops after invoking stages `1..k`. -/
theorem handle8_contextFail {C1 C2 C3 C4 C5 C6 C7 C8 T : Type} (p : Pipeline8 C1 C2 C3 C4 C5 C6 C7 C8)
    (i : HttpRequest → Except Err T) (h : C1 → C2 → C3 → C4 → C5 → C6 → C7 → C8 → T → Option Responder)
    (r : HttpRequest) (k : Nat) (e : Err) (ceh : Nat → Err → Responder)
    (hopt : p.options.ContextErrorHandler = some ceh)
    (hfail : p.failsAt r k e) :
    HandlePipelineWithInput8 p i h r = ((ceh k e) r, stageTrace k) := by
  match k with
  | 0 => exact False.elim hfail
  | 1 =>
    have h1 : p.p7.p6.p5.p4.p3.p2.p1.decoder r = Except.error e := hfail
    simp [HandlePipelineWithInput8, h1, PipelineOptions.callContextErrorHandler, hopt,
      stageTrace]
  | 2 =>
    obtain ⟨c1, h1, h2⟩ := hfail
    simp [HandlePipelineWithInput8, h1, h2, PipelineOptions.callContextErrorHandler, hopt,
      stageTrace]
  | 3 =>
    obtain ⟨c1, c2, h1, h2, h3⟩ := hfail
    simp [HandlePipelineWithInput8, h1, h2, h3, PipelineOptions.callContextErrorHandler, hopt,
      stageTrace]
  | 4 =>
    obtain ⟨c1, c2, c3, h1, h2, h3, h4⟩ := hfail
    simp [HandlePipelineWithInput8, h1, h2, h3, h4, PipelineOptions.callContextErrorHandler, hopt,
      stageTrace]
  | 5 =>
    obtain ⟨c1, c2, c3, c4, h1, h2, h3, h4, h5⟩ := hfail
    simp [HandlePipelineWithInput8, h1, h2, h3, h4, h5, PipelineOptions.callContextErrorHandler, hopt,
      stageTrace]
  | 6 =>
    obtain ⟨c1, c2, c3, c4, c5, h1, h2, h3, h4, h5, h6⟩ := hfail
    simp [HandlePipelineWithInput8, h1, h2, h3, h4, h5, h6, PipelineOptions.callContextErrorHandler, hopt,
      stageTrace]
  | 7 =>
    obtain ⟨c1, c2, c3, c4, c5, c6, h1, h2, h3, h4, h5, h6, h7⟩ := hfail
    simp [HandlePipelineWithInput8, h1, h2, h3, h4, h5, h6, h7, PipelineOptions.callContextErrorHandler, hopt,
      stageTrace]
  | 8 =>
    obtain ⟨c1, c2, c3, c4, c5, c6, c7, h1, h2, h3, h4, h5, h6, h7, h8⟩ := hfail
    simp [HandlePipelineWithInput8, h1, h2, h3, h4, h5, h6, h7, h8, PipelineOptions.callContextErrorHandler, hopt,
      stageTrace]
  | j + 9 => exact False.elim hfail

/-- If all 8 stage decoders succeed but the input decoder fails, the handler
renders exactly the input-error policy and never invokes the business handler. -/
theorem handle8_inputFail {C1 C2 C3 C4 C5 C6 C7 C8 T : Type} (p : Pipeline8 C1 C2 C3 C4 C5 C6 C7 C8)
    (i : HttpRequest → Except Err T) (h : C1 → C2 → C3 → C4 → C5 → C6 → C7 → C8 → T → Option Responder)
    (r : HttpRequest) (c1 : C1) (c2 : C2) (c3 : C3) (c4 : C4) (c5 : C5) (c6 : C6) (c7 : C7) (c8 : C8) (e : Err)
    (ieh : Err → Responder)
    (hopt : p.options.InputErrorHandler = some ieh)
    (h1 : p.p7.p6.p5.p4.p3.p2.p1.decoder r = Except.ok c1)
    (h2 : p.p7.p6.p5.p4.p3.p2.decoder r c1 = Except.ok c2)
    (h3 : p.p7.p6.p5.p4.p3.decoder r c1 c2 = Except.ok c3)
    (h4 : p.p7.p6.p5.p4.decoder r c1 c2 c3 = Except.ok c4)
    (h5 : p.p7.p6.p5.decoder r c1 c2 c3 c4 = Except.ok c5)
    (h6 : p.p7.p6.decoder r c1 c2 c3 c4 c5 = Except.ok c6)
    (h7 : p.p7.decoder r c1 c2 c3 c4 c5 c6 = Except.ok c7)
    (h8 : p.decoder r c1 c2 c3 c4 c5 c6 c7 = Except.ok c8)
    (hin : i r = Except.error e) :
    HandlePipelineWithInput8 p i h r = ((ieh e) r, stageTrace 8 ++ [Call.inputDec]) := by
  simp [HandlePipelineWithInput8, h1, h2, h3, h4, h5, h6, h7, h8, hin, PipelineOptions.callInputErrorHandler, hopt,
    stageTrace]

/-- If all 8 stage decoders and the input decoder succeed, the handler is
invoked once with the decoded values in stage order followed by the input, and
its result is rendered (nil meaning 204 No Content). -/
theorem handle8_success {C1 C2 C3 C4 C5 C6 C7 C8 T : Type} (p : Pipeline8 C1 C2 C3 C4 C5 C6 C7 C8)
    (i : HttpRequest → Except Err T) (h : C1 → C2 → C3 → C4 → C5 → C6 → C7 → C8 → T → Option Responder)
    (r : HttpRequest) (c1 : C1) (c2 : C2) (c3 : C3) (c4 : C4) (c5 : C5) (c6 : C6) (c7 : C7) (c8 : C8) (t : T)
    (h1 : p.p7.p6.p5.p4.p3.p2.p1.decoder r = Except.ok c1)
    (h2 : p.p7.p6.p5.p4.p3.p2.decoder r c1 = Except.ok c2)
    (h3 : p.p7.p6.p5.p4.p3.decoder r c1 c2 = Except.ok c3)
    (h4 : p.p7.p6.p5.p4.decoder r c1 c2 c3 = Except.ok c4)
    (h5 : p.p7.p6.p5.decoder r c1 c2 c3 c4 = Except.ok c5)
    (h6 : p.p7.p6.decoder r c1 c2 c3 c4 c5 = Except.ok c6)
    (h7 : p.p7.decoder r c1 c2 c3 c4 c5 c6 = Except.ok c7)
    (h8 : p.decoder r c1 c2 c3 c4 c5 c6 c7 = Except.ok c8)
    (hin : i r = Except.ok t) :
    HandlePipelineWithInput8 p i h r =
      (renderResult (h c1 c2 c3 c4 c5 c6 c7 c8 t) r, stageTrace 8 ++ [Call.inputDec, Call.handlerRun]) := by
  cases hres : h c1 c2 c3 c4 c5 c6 c7 c8 t <;>
    simp [HandlePipelineWithInput8, h1, h2, h3, h4, h5, h6, h7, h8, hin, hres, renderResult, stageTrace]

/-! ### Claim theorems -/

/-- C1: for every pipeline of arity N (1..8), if the decoder of stage k returns a
non-nil error (stages before it having succeeded), `HandlePipelineWithInputN`
invokes exactly stages 1..k — never the decoders of stages k+1..N, never the
input decoder, never the business handler — and renders only the Responder
produced by the stage-error policy applied to index k and the error. -/
theorem claim_C1_short_circuit_on_stage_failure :
    (∀ (C T : Type) (p : Pipeline1 C) (i : HttpRequest → Except Err T)
      (h : C → T → Option Responder) (r : HttpRequest) (k : Nat) (e : Err)
      (ceh : Nat → Err → Responder),
      p.options.ContextErrorHandler = some ceh → p.failsAt r k e →
      HandlePipelineWithInput1 p i h r = ((ceh k e) r, stageTrace k)) ∧
    (∀ (C1 C2 T : Type) (p : Pipeline2 C1 C2) (i : HttpRequest → Except Err T)
      (h : C1 → C2 → T → Option Responder) (r : HttpRequest) (k : Nat) (e : Err)
      (ceh : Nat → Err → Responder),
      p.options.ContextErrorHandler = some ceh → p.failsAt r k e →
      HandlePipelineWithInput2 p i h r = ((ceh k e) r, stageTrace k)) ∧
    (∀ (C1 C2 C3 T : Type) (p : Pipeline3 C1 C2 C3) (i : HttpRequest → Except Err T)
      (h : C1 → C2 → C3 → T → Option Responder) (r : HttpRequest) (k : Nat) (e : Err)
      (ceh : Nat → Err → Responder),
      p.options.ContextErrorHandler = some ceh → p.failsAt r k e →
      HandlePipelineWithInput3 p i h r = ((ceh k e) r, stageTrace k)) ∧
    (∀ (C1 C2 C3 C4 T : Type) (p : Pipeline4 C1 C2 C3 C4) (i : HttpRequest → Except Err T)
      (h : C1 → C2 → C3 → C4 → T → Option Responder) (r : HttpRequest) (k : Nat) (e : Err)
      (ceh : Nat → Err → Responder),
      p.options.ContextErrorHandler = some ceh → p.failsAt r k e →
      HandlePipelineWithInput4 p i h r = ((ceh k e) r, stageTrace k)) ∧
    (∀ (C1 C2 C3 C4 C5 T : Type) (p : Pipeline5 C1 C2 C3 C4 C5) (i : HttpRequest → Except Err T)
      (h : C1 → C2 → C3 → C4 → C5 → T → Option Responder) (r : HttpRequest) (k : Nat) (e : Err)
      (ceh : Nat → Err → Responder),
      p.options.ContextErrorHandler = some ceh → p.failsAt r k e →
      HandlePipelineWithInput5 p i h r = ((ceh k e) r, stageTrace k)) ∧
    (∀ (C1 C2 C3 C4 C5 C6 T : Type) (p : Pipeline6 C1 C2 C3 C4 C5 C6) (i : HttpRequest → Except Err T)
      (h : C1 → C2 → C3 → C4 → C5 → C6 → T → Option Responder) (r : HttpRequest) (k : Nat) (e : Err)
      (ceh : Nat → Err → Responder),
      p.options.ContextErrorHandler = some ceh → p.failsAt r k e →
      HandlePipelineWithInput6 p i h r = ((ceh k e) r, stageTrace k)) ∧
    (∀ (C1 C2 C3 C4 C5 C6 C7 T : Type) (p : Pipeline7 C1 C2 C3 C4 C5 C6 C7) (i : HttpRequest → Except Err T)
      (h : C1 → C2 → C3 → C4 → C5 → C6 → C7 → T → Option Responder) (r : HttpRequest) (k : Nat) (e : Err)
      (ceh : Nat → Err → Responder),
      p.options.ContextErrorHandler = some ceh → p.failsAt r k e →
      HandlePipelineWithInput7 p i h r = ((ceh k e) r, stageTrace k)) ∧
    (∀ (C1 C2 C3 C4 C5 C6 C7 C8 T : Type) (p : Pipeline8 C1 C2 C3 C4 C5 C6 C7 C8) (i : HttpRequest → Except Err T)
      (h : C1 → C2 → C3 → C4 → C5 → C6 → C7 → C8 → T → Option Responder) (r : HttpRequest) (k : Nat) (e : Err)
      (ceh : Nat → Err → Responder),
      p.options.ContextErrorHandler = some ceh → p.failsAt r k e →
      HandlePipelineWithInput8 p i h r = ((ceh k e) r, stageTrace k)) := by
  refine ⟨?_, ?_, ?_, ?_, ?_, ?_, ?_, ?_⟩
  · intro _ _ p i h r k e ceh hopt hfail
    exact handle1_contextFail p i h r k e ceh hopt hfail
  · intro _ _ _ p i h r k e ceh hopt hfail
    exact handle2_contextFail p i h r k e ceh hopt hfail
  · intro _ _ _ _ p i h r k e ceh hopt hfail
    exact handle3_contextFail p i h r k e ceh hopt hfail
  · intro _ _ _ _ _ p i h r k e ceh hopt hfail
    exact handle4_contextFail p i h r k e ceh hopt hfail
  · intro _ _ _ _ _ _ p i h r k e ceh hopt hfail
    exact handle5_contextFail p i h r k e ceh hopt hfail
  · intro _ _ _ _ _ _ _ p i h r k e ceh hopt hfail
    exact handle6_contextFail p i h r k e ceh hopt hfail
  · intro _ _ _ _ _ _ _ _ p i h r k e ceh hopt hfail
    exact handle7_contextFail p i h r k e ceh hopt hfail
  · intro _ _ _ _ _ _ _ _ _ p i h r k e ceh hopt hfail
    exact handle8_contextFail p i h r k e ceh hopt hfail

/-- C2: for every pipeline of arity N (1..8) on which every stage decoder and
the input decoder succeed, `HandlePipelineWithInputN` invokes the business
handler exactly once (one `handlerRun` in the trace), passing the decoded
values in stage order 1..N, each the exact value its stage decoder returned,
followed by the decoded input value; the handler's result is rendered. -/
theorem claim_C2_sequential_accumulation :
    (∀ (C T : Type) (p : Pipeline1 C) (i : HttpRequest → Except Err T)
      (h : C → T → Option Responder) (r : HttpRequest) (c1 : C) (t : T),
      p.decoder r = Except.ok c1 →
      i r = Except.ok t →
      (HandlePipelineWithInput1 p i h r =
          (renderResult (h c1 t) r,
            stageTrace 1 ++ [Call.inputDec, Call.handlerRun]) ∧
        (HandlePipelineWithInput1 p i h r).2.count Call.handlerRun = 1)) ∧
    (∀ (C1 C2 T : Type) (p : Pipeline2 C1 C2) (i : HttpRequest → Except Err T)
      (h : C1 → C2 → T → Option Responder) (r : HttpRequest) (c1 : C1) (c2 : C2) (t : T),
      p.p1.decoder r = Except.ok c1 →
      p.decoder r c1 = Except.ok c2 →
      i r = Except.ok t →
      (HandlePipelineWithInput2 p i h r =
          (renderResult (h c1 c2 t) r,
            stageTrace 2 ++ [Call.inputDec, Call.handlerRun]) ∧
        (HandlePipelineWithInput2 p i h r).2.count Call.handlerRun = 1)) ∧
    (∀ (C1 C2 C3 T : Type) (p : Pipeline3 C1 C2 C3) (i : HttpRequest → Except Err T)
      (h : C1 → C2 → C3 → T → Option Responder) (r : HttpRequest) (c1 : C1) (c2 : C2) (c3 : C3) (t : T),
      p.p2.p1.decoder r = Except.ok c1 →
      p.p2.decoder r c1 = Except.ok c2 →
      p.decoder r c1 c2 = Except.ok c3 →
      i r = Except.ok t →
      (HandlePipelineWithInput3 p i h r =
          (renderResult (h c1 c2 c3 t) r,
            stageTrace 3 ++ [Call.inputDec, Call.handlerRun]) ∧
        (HandlePipelineWithInput3 p i h r).2.count Call.handlerRun = 1)) ∧
    (∀ (C1 C2 C3 C4 T : Type) (p : Pipeline4 C1 C2 C3 C4) (i : HttpRequest → Except Err T)
      (h : C1 → C2 → C3 → C4 → T → Option Responder) (r : HttpRequest) (c1 : C1) (c2 : C2) (c3 : C3) (c4 : C4) (t : T),
      p.p3.p2.p1.decoder r = Except.ok c1 →
      p.p3.p2.decoder r c1 = Except.ok c2 →
      p.p3.decoder r c1 c2 = Except.ok c3 →
      p.decoder r c1 c2 c3 = Except.ok c4 →
      i r = Except.ok t →
      (HandlePipelineWithInput4 p i h r =
          (renderResult (h c1 c2 c3 c4 t) r,
            stageTrace 4 ++ [Call.inputDec, Call.handlerRun]) ∧
        (HandlePipelineWithInput4 p i h r).2.count Call.handlerRun = 1)) ∧
    (∀ (C1 C2 C3 C4 C5 T : Type) (p : Pipeline5 C1 C2 C3 C4 C5) (i : HttpRequest → Except Err T)
      (h : C1 → C2 → C3 → C4 → C5 → T → Option Responder) (r : HttpRequest) (c1 : C1) (c2 : C2) (c3 : C3) (c4 : C4) (c5 : C5) (t : T),
      p.p4.p3.p2.p1.decoder r = Except.ok c1 →
      p.p4.p3.p2.decoder r c1 = Except.ok c2 →
      p.p4.p3.decoder r c1 c2 = Except.ok c3 →
      p.p4.decoder r c1 c2 c3 = Except.ok c4 →
      p.decoder r c1 c2 c3 c4 = Except.ok c5 →
      i r = Except.ok t →
      (HandlePipelineWithInput5 p i h r =
          (renderResult (h c1 c2 c3 c4 c5 t) r,
            stageTrace 5 ++ [Call.inputDec, Call.handlerRun]) ∧
        (HandlePipelineWithInput5 p i h r).2.count Call.handlerRun = 1)) ∧
    (∀ (C1 C2 C3 C4 C5 C6 T : Type) (p : Pipeline6 C1 C2 C3 C4 C5 C6) (i : HttpRequest → Except Err T)
      (h : C1 → C2 → C3 → C4 → C5 → C6 → T → Option Responder) (r : HttpRequest) (c1 : C1) (c2 : C2) (c3 : C3) (c4 : C4) (c5 : C5) (c6 : C6) (t : T),
      p.p5.p4.p3.p2.p1.decoder r = Except.ok c1 →
      p.p5.p4.p3.p2.decoder r c1 = Except.ok c2 →
      p.p5.p4.p3.decoder r c1 c2 = Except.ok c3 →
      p.p5.p4.decoder r c1 c2 c3 = Except.ok c4 →
      p.p5.decoder r c1 c2 c3 c4 = Except.ok c5 →
      p.decoder r c1 c2 c3 c4 c5 = Except.ok c6 →
      i r = Except.ok t →
      (HandlePipelineWithInput6 p i h r =
          (renderResult (h c1 c2 c3 c4 c5 c6 t) r,
            stageTrace 6 ++ [Call.inputDec, Call.handlerRun]) ∧
        (HandlePipelineWithInput6 p i h r).2.count Call.handlerRun = 1)) ∧
    (∀ (C1 C2 C3 C4 C5 C6 C7 T : Type) (p : Pipeline7 C1 C2 C3 C4 C5 C6 C7) (i : HttpRequest → Except Err T)
      (h : C1 → C2 → C3 → C4 → C5 → C6 → C7 → T → Option Responder) (r : HttpRequest) (c1 : C1) (c2 : C2) (c3 : C3) (c4 : C4) (c5 : C5) (c6 : C6) (c7 : C7) (t : T),
      p.p6.p5.p4.p3.p2.p1.decoder r = Except.ok c1 →
      p.p6.p5.p4.p3.p2.decoder r c1 = Except.ok c2 →
      p.p6.p5.p4.p3.decoder r c1 c2 = Except.ok c3 →
      p.p6.p5.p4.decoder r c1 c2 c3 = Except.ok c4 →
      p.p6.p5.decoder r c1 c2 c3 c4 = Except.ok c5 →
      p.p6.decoder r c1 c2 c3 c4 c5 = Except.ok c6 →
      p.decoder r c1 c2 c3 c4 c5 c6 = Except.ok c7 →
      i r = Except.ok t →
      (HandlePipelineWithInput7 p i h r =
          (renderResult (h c1 c2 c3 c4 c5 c6 c7 t) r,
            stageTrace 7 ++ [Call.inputDec, Call.handlerRun]) ∧
        (HandlePipelineWithInput7 p i h r).2.count Call.handlerRun = 1)) ∧
    (∀ (C1 C2 C3 C4 C5 C6 C7 C8 T : Type) (p : Pipeline8 C1 C2 C3 C4 C5 C6 C7 C8) (i : HttpRequest → Except Err T)
      (h : C1 → C2 → C3 → C4 → C5 → C6 → C7 → C8 → T → Option Responder) (r : HttpRequest) (c1 : C1) (c2 : C2) (c3 : C3) (c4 : C4) (c5 : C5) (c6 : C6) (c7 : C7) (c8 : C8) (t : T),
      p.p7.p6.p5.p4.p3.p2.p1.decoder r = Except.ok c1 →
      p.p7.p6.p5.p4.p3.p2.decoder r c1 = Except.ok c2 →
      p.p7.p6.p5.p4.p3.decoder r c1 c2 = Except.ok c3 →
      p.p7.p6.p5.p4.decoder r c1 c2 c3 = Except.ok c4 →
      p.p7.p6.p5.decoder r c1 c2 c3 c4 = Except.ok c5 →
      p.p7.p6.decoder r c1 c2 c3 c4 c5 = Except.ok c6 →
      p.p7.decoder r c1 c2 c3 c4 c5 c6 = Except.ok c7 →
      p.decoder r c1 c2 c3 c4 c5 c6 c7 = Except.ok c8 →
      i r = Except.ok t →
      (HandlePipelineWithInput8 p i h r =
          (renderResult (h c1 c2 c3 c4 c5 c6 c7 c8 t) r,
            stageTrace 8 ++ [Call.inputDec, Call.handlerRun]) ∧
        (HandlePipelineWithInput8 p i h r).2.count Call.handlerRun = 1)) := by
  refine ⟨?_, ?_, ?_, ?_, ?_, ?_, ?_, ?_⟩
  · intro _ _ p i h r c1 t h1 hin
    have hs := handle1_success p i h r c1 t h1 hin
    exact ⟨hs, by rw [hs]; rfl⟩
  · intro _ _ _ p i h r c1 c2 t h1 h2 hin
    have hs := handle2_success p i h r c1 c2 t h1 h2 hin
    exact ⟨hs, by rw [hs]; rfl⟩
  · intro _ _ _ _ p i h r c1 c2 c3 t h1 h2 h3 hin
    have hs := handle3_success p i h r c1 c2 c3 t h1 h2 h3 hin
    exact ⟨hs, by rw [hs]; rfl⟩
  · intro _ _ _ _ _ p i h r c1 c2 c3 c4 t h1 h2 h3 h4 hin
    have hs := handle4_success p i h r c1 c2 c3 c4 t h1 h2 h3 h4 hin
    exact ⟨hs, by rw [hs]; rfl⟩
  · intro _ _ _ _ _ _ p i h r c1 c2 c3 c4 c5 t h1 h2 h3 h4 h5 hin
    have hs := handle5_success p i h r c1 c2 c3 c4 c5 t h1 h2 h3 h4 h5 hin
    exact ⟨hs, by rw [hs]; rfl⟩
  · intro _ _ _ _ _ _ _ p i h r c1 c2 c3 c4 c5 c6 t h1 h2 h3 h4 h5 h6 hin
    have hs := handle6_success p i h r c1 c2 c3 c4 c5 c6 t h1 h2 h3 h4 h5 h6 hin
    exact ⟨hs, by rw [hs]; rfl⟩
  · intro _ _ _ _ _ _ _ _ p i h r c1 c2 c3 c4 c5 c6 c7 t h1 h2 h3 h4 h5 h6 h7 hin
    have hs := handle7_success p i h r c1 c2 c3 c4 c5 c6 c7 t h1 h2 h3 h4 h5 h6 h7 hin
    exact ⟨hs, by rw [hs]; rfl⟩
  · intro _ _ _ _ _ _ _ _ _ p i h r c1 c2 c3 c4 c5 c6 c7 c8 t h1 h2 h3 h4 h5 h6 h7 h8 hin
    have hs := handle8_success p i h r c1 c2 c3 c4 c5 c6 c7 c8 t h1 h2 h3 h4 h5 h6 h7 h8 hin
    exact ⟨hs, by rw [hs]; rfl⟩

/-- C4: for every pipeline of arity N (1..8) built with a custom stage-error
handler via `WithContextErrorHandler` (and no later override), a failure at
stage k renders the custom handler's Responder — not the default — with the
1-based index k passed through; in particular a handler mapping every failure
to 401/"unauthorized" yields exactly status 401 with body "unauthorized". -/
theorem claim_C4_custom_error_handler_override :
    (∀ (C T : Type)
      (d1 : HttpRequest → Except Err C)
      (custom : Nat → Err → Responder) (i : HttpRequest → Except Err T)
      (h : C → T → Option Responder) (r : HttpRequest) (k : Nat) (e : Err),
      (NewPipeline1 d1 [WithContextErrorHandler custom]).failsAt r k e →
      HandlePipelineWithInput1 (NewPipeline1 d1 [WithContextErrorHandler custom]) i h r =
        ((custom k e) r, stageTrace k)) ∧
    (∀ (C1 C2 T : Type)
      (d1 : HttpRequest → Except Err C1)
      (d2 : HttpRequest → C1 → Except Err C2)
      (custom : Nat → Err → Responder) (i : HttpRequest → Except Err T)
      (h : C1 → C2 → T → Option Responder) (r : HttpRequest) (k : Nat) (e : Err),
      (NewPipeline2 (NewPipeline1 d1 [WithContextErrorHandler custom]) d2 []).failsAt r k e →
      HandlePipelineWithInput2 (NewPipeline2 (NewPipeline1 d1 [WithContextErrorHandler custom]) d2 []) i h r =
        ((custom k e) r, stageTrace k)) ∧
    (∀ (C1 C2 C3 T : Type)
      (d1 : HttpRequest → Except Err C1)
      (d2 : HttpRequest → C1 → Except Err C2)
      (d3 : HttpRequest → C1 → C2 → Except Err C3)
      (custom : Nat → Err → Responder) (i : HttpRequest → Except Err T)
      (h : C1 → C2 → C3 → T → Option Responder) (r : HttpRequest) (k : Nat) (e : Err),
      (NewPipeline3 (NewPipeline2 (NewPipeline1 d1 [WithContextErrorHandler custom]) d2 []) d3 []).failsAt r k e →
      HandlePipelineWithInput3 (NewPipeline3 (NewPipeline2 (NewPipeline1 d1 [WithContextErrorHandler custom]) d2 []) d3 []) i h r =
        ((custom k e) r, stageTrace k)) ∧
    (∀ (C1 C2 C3 C4 T : Type)
      (d1 : HttpRequest → Except Err C1)
      (d2 : HttpRequest → C1 → Except Err C2)
      (d3 : HttpRequest → C1 → C2 → Except Err C3)
      (d4 : HttpRequest → C1 → C2 → C3 → Except Err C4)
      (custom : Nat → Err → Responder) (i : HttpRequest → Except Err T)
      (h : C1 → C2 → C3 → C4 → T → Option Responder) (r : HttpRequest) (k : Nat) (e : Err),
      (NewPipeline4 (NewPipeline3 (NewPipeline2 (NewPipeline1 d1 [WithContextErrorHandler custom]) d2 []) d3 []) d4 []).failsAt r k e →
      HandlePipelineWithInput4 (NewPipeline4 (NewPipeline3 (NewPipeline2 (NewPipeline1 d1 [WithContextErrorHandler custom]) d2 []) d3 []) d4 []) i h r =
        ((custom k e) r, stageTrace k)) ∧
    (∀ (C1 C2 C3 C4 C5 T : Type)
      (d1 : HttpRequest → Except Err C1)
      (d2 : HttpRequest → C1 → Except Err C2)
      (d3 : HttpRequest → C1 → C2 → Except Err C3)
      (d4 : HttpRequest → C1 → C2 → C3 → Except Err C4)
      (d5 : HttpRequest → C1 → C2 → C3 → C4 → Except Err C5)
      (custom : Nat → Err → Responder) (i : HttpRequest → Except Err T)
      (h : C1 → C2 → C3 → C4 → C5 → T → Option Responder) (r : HttpRequest) (k : Nat) (e : Err),
      (NewPipeline5 (NewPipeline4 (NewPipeline3 (NewPipeline2 (NewPipeline1 d1 [WithContextErrorHandler custom]) d2 []) d3 []) d4 []) d5 []).failsAt r k e →
      HandlePipelineWithInput5 (NewPipeline5 (NewPipeline4 (NewPipeline3 (NewPipeline2 (NewPipeline1 d1 [WithContextErrorHandler custom]) d2 []) d3 []) d4 []) d5 []) i h r =
        ((custom k e) r, stageTrace k)) ∧
    (∀ (C1 C2 C3 C4 C5 C6 T : Type)
      (d1 : HttpRequest → Except Err C1)
      (d2 : HttpRequest → C1 → Except Err C2)
      (d3 : HttpRequest → C1 → C2 → Except Err C3)
      (d4 : HttpRequest → C1 → C2 → C3 → Except Err C4)
      (d5 : HttpRequest → C1 → C2 → C3 → C4 → Except Err C5)
      (d6 : HttpRequest → C1 → C2 → C3 → C4 → C5 → Except Err C6)
      (custom : Nat → Err → Responder) (i : HttpRequest → Except Err T)
      (h : C1 → C2 → C3 → C4 → C5 → C6 → T → Option Responder) (r : HttpRequest) (k : Nat) (e : Err),
      (NewPipeline6 (NewPipeline5 (NewPipeline4 (NewPipeline3 (NewPipeline2 (NewPipeline1 d1 [WithContextErrorHandler custom]) d2 []) d3 []) d4 []) d5 []) d6 []).failsAt r k e →
      HandlePipelineWithInput6 (NewPipeline6 (NewPipeline5 (NewPipeline4 (NewPipeline3 (NewPipeline2 (NewPipeline1 d1 [WithContextErrorHandler custom]) d2 []) d3 []) d4 []) d5 []) d6 []) i h r =
        ((custom k e) r, stageTrace k)) ∧
    (∀ (C1 C2 C3 C4 C5 C6 C7 T : Type)
      (d1 : HttpRequest → Except Err C1)
      (d2 : HttpRequest → C1 → Except Err C2)
      (d3 : HttpRequest → C1 → C2 → Except Err C3)
      (d4 : HttpRequest → C1 → C2 → C3 → Except Err C4)
      (d5 : HttpRequest → C1 → C2 → C3 → C4 → Except Err C5)
      (d6 : HttpRequest → C1 → C2 → C3 → C4 → C5 → Except Err C6)
      (d7 : HttpRequest → C1 → C2 → C3 → C4 → C5 → C6 → Except Err C7)
      (custom : Nat → Err → Responder) (i : HttpRequest → Except Err T)
      (h : C1 → C2 → C3 → C4 → C5 → C6 → C7 → T → Option Responder) (r : HttpRequest) (k : Nat) (e : Err),
      (NewPipeline7 (NewPipeline6 (NewPipeline5 (NewPipeline4 (NewPipeline3 (NewPipeline2 (NewPipeline1 d1 [WithContextErrorHandler custom]) d2 []) d3 []) d4 []) d5 []) d6 []) d7 []).failsAt r k e →
      HandlePipelineWithInput7 (NewPipeline7 (NewPipeline6 (NewPipeline5 (NewPipeline4 (NewPipeline3 (NewPipeline2 (NewPipeline1 d1 [WithContextErrorHandler custom]) d2 []) d3 []) d4 []) d5 []) d6 []) d7 []) i h r =
        ((custom k e) r, stageTrace k)) ∧
    (∀ (C1 C2 C3 C4 C5 C6 C7 C8 T : Type)
      (d1 : HttpRequest → Except Err C1)
      (d2 : HttpRequest → C1 → Except Err C2)
      (d3 : HttpRequest → C1 → C2 → Except Err C3)
      (d4 : HttpRequest → C1 → C2 → C3 → Except Err C4)
      (d5 : HttpRequest → C1 → C2 → C3 → C4 → Except Err C5)
      (d6 : HttpRequest → C1 → C2 → C3 → C4 → C5 → Except Err C6)
      (d7 : HttpRequest → C1 → C2 → C3 → C4 → C5 → C6 → Except Err C7)
      (d8 : HttpRequest → C1 → C2 → C3 → C4 → C5 → C6 → C7 → Except Err C8)
      (custom : Nat → Err → Responder) (i : HttpRequest → Except Err T)
      (h : C1 → C2 → C3 → C4 → C5 → C6 → C7 → C8 → T → Option Responder) (r : HttpRequest) (k : Nat) (e : Err),
      (NewPipeline8 (NewPipeline7 (NewPipeline6 (NewPipeline5 (NewPipeline4 (NewPipeline3 (NewPipeline2 (NewPipeline1 d1 [WithContextErrorHandler custom]) d2 []) d3 []) d4 []) d5 []) d6 []) d7 []) d8 []).failsAt r k e →
      HandlePipelineWithInput8 (NewPipeline8 (NewPipeline7 (NewPipeline6 (NewPipeline5 (NewPipeline4 (NewPipeline3 (NewPipeline2 (NewPipeline1 d1 [WithContextErrorHandler custom]) d2 []) d3 []) d4 []) d5 []) d6 []) d7 []) d8 []) i h r =
        ((custom k e) r, stageTrace k)) ∧
    (@HandlePipelineWithInput1 Nat Nat
        (NewPipeline1 (fun _ => Except.error "missing header X")
          [WithContextErrorHandler (fun _ _ => fun _ => ⟨401, "unauthorized"⟩)])
        (fun _ => Except.ok 0) (fun _ _ => none) ⟨[], [], [], 0⟩).1 =
      ⟨401, "unauthorized"⟩ := by
  refine ⟨?_, ?_, ?_, ?_, ?_, ?_, ?_, ?_, ?_⟩
  · intro _ _ d1 custom i h r k e hfail
    exact handle1_contextFail _ i h r k e custom rfl hfail
  · intro _ _ _ d1 d2 custom i h r k e hfail
    exact handle2_contextFail _ i h r k e custom rfl hfail
  · intro _ _ _ _ d1 d2 d3 custom i h r k e hfail
    exact handle3_contextFail _ i h r k e custom rfl hfail
  · intro _ _ _ _ _ d1 d2 d3 d4 custom i h r k e hfail
    exact handle4_contextFail _ i h r k e custom rfl hfail
  · intro _ _ _ _ _ _ d1 d2 d3 d4 d5 custom i h r k e hfail
    exact handle5_contextFail _ i h r k e custom rfl hfail
  · intro _ _ _ _ _ _ _ d1 d2 d3 d4 d5 d6 custom i h r k e hfail
    exact handle6_contextFail _ i h r k e custom rfl hfail
  · intro _ _ _ _ _ _ _ _ d1 d2 d3 d4 d5 d6 d7 custom i h r k e hfail
    exact handle7_contextFail _ i h r k e custom rfl hfail
  · intro _ _ _ _ _ _ _ _ _ d1 d2 d3 d4 d5 d6 d7 d8 custom i h r k e hfail
    exact handle8_contextFail _ i h r k e custom rfl hfail
  · rfl

/-- C5: for every pipeline of arity N (1..8) on which all decoders succeed, if
the business handler returns a nil Responder the rendered response is exactly
status 204 No Content with an empty body. -/
theorem claim_C5_nil_responder_renders_no_content :
    (∀ (C T : Type) (p : Pipeline1 C) (i : HttpRequest → Except Err T)
      (h : C → T → Option Responder) (r : HttpRequest) (c1 : C) (t : T),
      p.decoder r = Except.ok c1 →
      i r = Except.ok t →
      h c1 t = none →
      (HandlePipelineWithInput1 p i h r).1 = ⟨204, ""⟩) ∧
    (∀ (C1 C2 T : Type) (p : Pipeline2 C1 C2) (i : HttpRequest → Except Err T)
      (h : C1 → C2 → T → Option Responder) (r : HttpRequest) (c1 : C1) (c2 : C2) (t : T),
      p.p1.decoder r = Except.ok c1 →
      p.decoder r c1 = Except.ok c2 →
      i r = Except.ok t →
      h c1 c2 t = none →
      (HandlePipelineWithInput2 p i h r).1 = ⟨204, ""⟩) ∧
    (∀ (C1 C2 C3 T : Type) (p : Pipeline3 C1 C2 C3) (i : HttpRequest → Except Err T)
      (h : C1 → C2 → C3 → T → Option Responder) (r : HttpRequest) (c1 : C1) (c2 : C2) (c3 : C3) (t : T),
      p.p2.p1.decoder r = Except.ok c1 →
      p.p2.decoder r c1 = Except.ok c2 →
      p.decoder r c1 c2 = Except.ok c3 →
      i r = Except.ok t →
      h c1 c2 c3 t = none →
      (HandlePipelineWithInput3 p i h r).1 = ⟨204, ""⟩) ∧
    (∀ (C1 C2 C3 C4 T : Type) (p : Pipeline4 C1 C2 C3 C4) (i : HttpRequest → Except Err T)
      (h : C1 → C2 → C3 → C4 → T → Option Responder) (r : HttpRequest) (c1 : C1) (c2 : C2) (c3 : C3) (c4 : C4) (t : T),
      p.p3.p2.p1.decoder r = Except.ok c1 →
      p.p3.p2.decoder r c1 = Except.ok c2 →
      p.p3.decoder r c1 c2 = Except.ok c3 →
      p.decoder r c1 c2 c3 = Except.ok c4 →
      i r = Except.ok t →
      h c1 c2 c3 c4 t = none →
      (HandlePipelineWithInput4 p i h r).1 = ⟨204, ""⟩) ∧
    (∀ (C1 C2 C3 C4 C5 T : Type) (p : Pipeline5 C1 C2 C3 C4 C5) (i : HttpRequest → Except Err T)
      (h : C1 → C2 → C3 → C4 → C5 → T → Option Responder) (r : HttpRequest) (c1 : C1) (c2 : C2) (c3 : C3) (c4 : C4) (c5 : C5) (t : T),
      p.p4.p3.p2.p1.decoder r = Except.ok c1 →
      p.p4.p3.p2.decoder r c1 = Except.ok c2 →
      p.p4.p3.decoder r c1 c2 = Except.ok c3 →
      p.p4.decoder r c1 c2 c3 = Except.ok c4 →
      p.decoder r c1 c2 c3 c4 = Except.ok c5 →
      i r = Except.ok t →
      h c1 c2 c3 c4 c5 t = none →
      (HandlePipelineWithInput5 p i h r).1 = ⟨204, ""⟩) ∧
    (∀ (C1 C2 C3 C4 C5 C6 T : Type) (p : Pipeline6 C1 C2 C3 C4 C5 C6) (i : HttpRequest → Except Err T)
      (h : C1 → C2 → C3 → C4 → C5 → C6 → T → Option Responder) (r : HttpRequest) (c1 : C1) (c2 : C2) (c3 : C3) (c4 : C4) (c5 : C5) (c6 : C6) (t : T),
      p.p5.p4.p3.p2.p1.decoder r = Except.ok c1 →
      p.p5.p4.p3.p2.decoder r c1 = Except.ok c2 →
      p.p5.p4.p3.decoder r c1 c2 = Except.ok c3 →
      p.p5.p4.decoder r c1 c2 c3 = Except.ok c4 →
      p.p5.decoder r c1 c2 c3 c4 = Except.ok c5 →
      p.decoder r c1 c2 c3 c4 c5 = Except.ok c6 →
      i r = Except.ok t →
      h c1 c2 c3 c4 c5 c6 t = none →
      (HandlePipelineWithInput6 p i h r).1 = ⟨204, ""⟩) ∧
    (∀ (C1 C2 C3 C4 C5 C6 C7 T : Type) (p : Pipeline7 C1 C2 C3 C4 C5 C6 C7) (i : HttpRequest → Except Err T)
      (h : C1 → C2 → C3 → C4 → C5 → C6 → C7 → T → Option Responder) (r : HttpRequest) (c1 : C1) (c2 : C2) (c3 : C3) (c4 : C4) (c5 : C5) (c6 : C6) (c7 : C7) (t : T),
      p.p6.p5.p4.p3.p2.p1.decoder r = Except.ok c1 →
      p.p6.p5.p4.p3.p2.decoder r c1 = Except.ok c2 →
      p.p6.p5.p4.p3.decoder r c1 c2 = Except.ok c3 →
      p.p6.p5.p4.decoder r c1 c2 c3 = Except.ok c4 →
      p.p6.p5.decoder r c1 c2 c3 c4 = Except.ok c5 →
      p.p6.decoder r c1 c2 c3 c4 c5 = Except.ok c6 →
      p.decoder r c1 c2 c3 c4 c5 c6 = Except.ok c7 →
      i r = Except.ok t →
      h c1 c2 c3 c4 c5 c6 c7 t = none →
      (HandlePipelineWithInput7 p i h r).1 = ⟨204, ""⟩) ∧
    (∀ (C1 C2 C3 C4 C5 C6 C7 C8 T : Type) (p : Pipeline8 C1 C2 C3 C4 C5 C6 C7 C8) (i : HttpRequest → Except Err T)
      (h : C1 → C2 → C3 → C4 → C5 → C6 → C7 → C8 → T → Option Responder) (r : HttpRequest) (c1 : C1) (c2 : C2) (c3 : C3) (c4 : C4) (c5 : C5) (c6 : C6) (c7 : C7) (c8 : C8) (t : T),
      p.p7.p6.p5.p4.p3.p2.p1.decoder r = Except.ok c1 →
      p.p7.p6.p5.p4.p3.p2.decoder r c1 = Except.ok c2 →
      p.p7.p6.p5.p4.p3.decoder r c1 c2 = Except.ok c3 →
      p.p7.p6.p5.p4.decoder r c1 c2 c3 = Except.ok c4 →
      p.p7.p6.p5.decoder r c1 c2 c3 c4 = Except.ok c5 →
      p.p7.p6.decoder r c1 c2 c3 c4 c5 = Except.ok c6 →
      p.p7.decoder r c1 c2 c3 c4 c5 c6 = Except.ok c7 →
      p.decoder r c1 c2 c3 c4 c5 c6 c7 = Except.ok c8 →
      i r = Except.ok t →
      h c1 c2 c3 c4 c5 c6 c7 c8 t = none →
      (HandlePipelineWithInput8 p i h r).1 = ⟨204, ""⟩) := by
  refine ⟨?_, ?_, ?_, ?_, ?_, ?_, ?_, ?_⟩
  · intro _ _ p i h r c1 t h1 hin hnone
    have hrun := handle1_success p i h r c1 t h1 hin
    rw [hrun]
    simp [hnone, renderResult]
  · intro _ _ _ p i h r c1 c2 t h1 h2 hin hnone
    have hrun := handle2_success p i h r c1 c2 t h1 h2 hin
    rw [hrun]
    simp [hnone, renderResult]
  · intro _ _ _ _ p i h r c1 c2 c3 t h1 h2 h3 hin hnone
    have hrun := handle3_success p i h r c1 c2 c3 t h1 h2 h3 hin
    rw [hrun]
    simp [hnone, renderResult]
  · intro _ _ _ _ _ p i h r c1 c2 c3 c4 t h1 h2 h3 h4 hin hnone
    have hrun := handle4_success p i h r c1 c2 c3 c4 t h1 h2 h3 h4 hin
    rw [hrun]
    simp [hnone, renderResult]
  · intro _ _ _ _ _ _ p i h r c1 c2 c3 c4 c5 t h1 h2 h3 h4 h5 hin hnone
    have hrun := handle5_success p i h r c1 c2 c3 c4 c5 t h1 h2 h3 h4 h5 hin
    rw [hrun]
    simp [hnone, renderResult]
  · intro _ _ _ _ _ _ _ p i h r c1 c2 c3 c4 c5 c6 t h1 h2 h3 h4 h5 h6 hin hnone
    have hrun := handle6_success p i h r c1 c2 c3 c4 c5 c6 t h1 h2 h3 h4 h5 h6 hin
    rw [hrun]
    simp [hnone, renderResult]
  · intro _ _ _ _ _ _ _ _ p i h r c1 c2 c3 c4 c5 c6 c7 t h1 h2 h3 h4 h5 h6 h7 hin hnone
    have hrun := handle7_success p i h r c1 c2 c3 c4 c5 c6 c7 t h1 h2 h3 h4 h5 h6 h7 hin
    rw [hrun]
    simp [hnone, renderResult]
  · intro _ _ _ _ _ _ _ _ _ p i h r c1 c2 c3 c4 c5 c6 c7 c8 t h1 h2 h3 h4 h5 h6 h7 h8 hin hnone
    have hrun := handle8_success p i h r c1 c2 c3 c4 c5 c6 c7 c8 t h1 h2 h3 h4 h5 h6 h7 h8 hin
    rw [hrun]
    simp [hnone, renderResult]

/-- C6: for every pipeline (all arities of the plain design, and the variant
that wraps the input decoder as a terminal pipeline stage), if every context
stage succeeds but the input decoder fails, the rendered response is the one
produced by the `InputErrorHandler` hook (not the `ContextErrorHandler`), and
the business handler is never invoked — the failure is terminal. -/
theorem claim_C6_input_error_renders_input_policy :
    (∀ (C T : Type) (p : Pipeline1 C) (i : HttpRequest → Except Err T)
      (h : C → T → Option Responder) (r : HttpRequest) (c1 : C) (e : Err) (ieh : Err → Responder),
      p.options.InputErrorHandler = some ieh →
      p.decoder r = Except.ok c1 →
      i r = Except.error e →
      (HandlePipelineWithInput1 p i h r =
          ((ieh e) r, stageTrace 1 ++ [Call.inputDec]) ∧
        Call.handlerRun ∉ (HandlePipelineWithInput1 p i h r).2)) ∧
    (∀ (C1 C2 T : Type) (p : Pipeline2 C1 C2) (i : HttpRequest → Except Err T)
      (h : C1 → C2 → T → Option Responder) (r : HttpRequest) (c1 : C1) (c2 : C2) (e : Err) (ieh : Err → Responder),
      p.options.InputErrorHandler = some ieh →
      p.p1.decoder r = Except.ok c1 →
      p.decoder r c1 = Except.ok c2 →
      i r = Except.error e →
      (HandlePipelineWithInput2 p i h r =
          ((ieh e) r, stageTrace 2 ++ [Call.inputDec]) ∧
        Call.handlerRun ∉ (HandlePipelineWithInput2 p i h r).2)) ∧
    (∀ (C1 C2 C3 T : Type) (p : Pipeline3 C1 C2 C3) (i : HttpRequest → Except Err T)
      (h : C1 → C2 → C3 → T → Option Responder) (r : HttpRequest) (c1 : C1) (c2 : C2) (c3 : C3) (e : Err) (ieh : Err → Responder),
      p.options.InputErrorHandler = some ieh →
      p.p2.p1.decoder r = Except.ok c1 →
      p.p2.decoder r c1 = Except.ok c2 →
      p.decoder r c1 c2 = Except.ok c3 →
      i r = Except.error e →
      (HandlePipelineWithInput3 p i h r =
          ((ieh e) r, stageTrace 3 ++ [Call.inputDec]) ∧
        Call.handlerRun ∉ (HandlePipelineWithInput3 p i h r).2)) ∧
    (∀ (C1 C2 C3 C4 T : Type) (p : Pipeline4 C1 C2 C3 C4) (i : HttpRequest → Except Err T)
      (h : C1 → C2 → C3 → C4 → T → Option Responder) (r : HttpRequest) (c1 : C1) (c2 : C2) (c3 : C3) (c4 : C4) (e : Err) (ieh : Err → Responder),
      p.options.InputErrorHandler = some ieh →
      p.p3.p2.p1.decoder r = Except.ok c1 →
      p.p3.p2.decoder r c1 = Except.ok c2 →
      p.p3.decoder r c1 c2 = Except.ok c3 →
      p.decoder r c1 c2 c3 = Except.ok c4 →
      i r = Except.error e →
      (HandlePipelineWithInput4 p i h r =
          ((ieh e) r, stageTrace 4 ++ [Call.inputDec]) ∧
        Call.handlerRun ∉ (HandlePipelineWithInput4 p i h r).2)) ∧
    (∀ (C1 C2 C3 C4 C5 T : Type) (p : Pipeline5 C1 C2 C3 C4 C5) (i : HttpRequest → Except Err T)
      (h : C1 → C2 → C3 → C4 → C5 → T → Option Responder) (r : HttpRequest) (c1 : C1) (c2 : C2) (c3 : C3) (c4 : C4) (c5 : C5) (e : Err) (ieh : Err → Responder),
      p.options.InputErrorHandler = some ieh →
      p.p4.p3.p2.p1.decoder r = Except.ok c1 →
      p.p4.p3.p2.decoder r c1 = Except.ok c2 →
      p.p4.p3.decoder r c1 c2 = Except.ok c3 →
      p.p4.decoder r c1 c2 c3 = Except.ok c4 →
      p.decoder r c1 c2 c3 c4 = Except.ok c5 →
      i r = Except.error e →
      (HandlePipelineWithInput5 p i h r =
          ((ieh e) r, stageTrace 5 ++ [Call.inputDec]) ∧
        Call.handlerRun ∉ (HandlePipelineWithInput5 p i h r).2)) ∧
    (∀ (C1 C2 C3 C4 C5 C6 T : Type) (p : Pipeline6 C1 C2 C3 C4 C5 C6) (i : HttpRequest → Except Err T)
      (h : C1 → C2 → C3 → C4 → C5 → C6 → T → Option Responder) (r : HttpRequest) (c1 : C1) (c2 : C2) (c3 : C3) (c4 : C4) (c5 : C5) (c6 : C6) (e : Err) (ieh : Err → Responder),
      p.options.InputErrorHandler = some ieh →
      p.p5.p4.p3.p2.p1.decoder r = Except.ok c1 →
      p.p5.p4.p3.p2.decoder r c1 = Except.ok c2 →
      p.p5.p4.p3.decoder r c1 c2 = Except.ok c3 →
      p.p5.p4.decoder r c1 c2 c3 = Except.ok c4 →
      p.p5.decoder r c1 c2 c3 c4 = Except.ok c5 →
      p.decoder r c1 c2 c3 c4 c5 = Except.ok c6 →
      i r = Except.error e →
      (HandlePipelineWithInput6 p i h r =
          ((ieh e) r, stageTrace 6 ++ [Call.inputDec]) ∧
        Call.handlerRun ∉ (HandlePipelineWithInput6 p i h r).2)) ∧
    (∀ (C1 C2 C3 C4 C5 C6 C7 T : Type) (p : Pipeline7 C1 C2 C3 C4 C5 C6 C7) (i : HttpRequest → Except Err T)
      (h : C1 → C2 → C3 → C4 → C5 → C6 → C7 → T → Option Responder) (r : HttpRequest) (c1 : C1) (c2 : C2) (c3 : C3) (c4 : C4) (c5 : C5) (c6 : C6) (c7 : C7) (e : Err) (ieh : Err → Responder),
      p.options.InputErrorHandler = some ieh →
      p.p6.p5.p4.p3.p2.p1.decoder r = Except.ok c1 →
      p.p6.p5.p4.p3.p2.decoder r c1 = Except.ok c2 →
      p.p6.p5.p4.p3.decoder r c1 c2 = Except.ok c3 →
      p.p6.p5.p4.decoder r c1 c2 c3 = Except.ok c4 →
      p.p6.p5.decoder r c1 c2 c3 c4 = Except.ok c5 →
      p.p6.decoder r c1 c2 c3 c4 c5 = Except.ok c6 →
      p.decoder r c1 c2 c3 c4 c5 c6 = Except.ok c7 →
      i r = Except.error e →
      (HandlePipelineWithInput7 p i h r =
          ((ieh e) r, stageTrace 7 ++ [Call.inputDec]) ∧
        Call.handlerRun ∉ (HandlePipelineWithInput7 p i h r).2)) ∧
    (∀ (C1 C2 C3 C4 C5 C6 C7 C8 T : Type) (p : Pipeline8 C1 C2 C3 C4 C5 C6 C7 C8) (i : HttpRequest → Except Err T)
      (h : C1 → C2 → C3 → C4 → C5 → C6 → C7 → C8 → T → Option Responder) (r : HttpRequest) (c1 : C1) (c2 : C2) (c3 : C3) (c4 : C4) (c5 : C5) (c6 : C6) (c7 : C7) (c8 : C8) (e : Err) (ieh : Err → Responder),
      p.options.InputErrorHandler = some ieh →
      p.p7.p6.p5.p4.p3.p2.p1.decoder r = Except.ok c1 →
      p.p7.p6.p5.p4.p3.p2.decoder r c1 = Except.ok c2 →
      p.p7.p6.p5.p4.p3.decoder r c1 c2 = Except.ok c3 →
      p.p7.p6.p5.p4.decoder r c1 c2 c3 = Except.ok c4 →
      p.p7.p6.p5.decoder r c1 c2 c3 c4 = Except.ok c5 →
      p.p7.p6.decoder r c1 c2 c3 c4 c5 = Except.ok c6 →
      p.p7.decoder r c1 c2 c3 c4 c5 c6 = Except.ok c7 →
      p.decoder r c1 c2 c3 c4 c5 c6 c7 = Except.ok c8 →
      i r = Except.error e →
      (HandlePipelineWithInput8 p i h r =
          ((ieh e) r, stageTrace 8 ++ [Call.inputDec]) ∧
        Call.handlerRun ∉ (HandlePipelineWithInput8 p i h r).2)) ∧
    (∀ (C T : Type) (p : Pipeline1 C) (i : HttpRequest → Except Err T)
      (h : Nat → C → T → Option Responder) (r : HttpRequest) (c : C) (e : Err)
      (ieh : Err → Responder),
      p.options.InputErrorHandler = some ieh → p.decoder r = Except.ok c →
      i r = Except.error e →
      (StagedInput.HandlePipelineWithInput1 p i h r =
          ((ieh e) r, [Call.stage 1, Call.inputDec]) ∧
        Call.handlerRun ∉ (StagedInput.HandlePipelineWithInput1 p i h r).2)) := by
  refine ⟨?_, ?_, ?_, ?_, ?_, ?_, ?_, ?_, ?_⟩
  · intro _ _ p i h r c1 e ieh hopt h1 hin
    have hrun := handle1_inputFail p i h r c1 e ieh hopt h1 hin
    refine ⟨hrun, ?_⟩
    rw [hrun]
    show Call.handlerRun ∉ stageTrace 1 ++ [Call.inputDec]
    simp [stageTrace]
  · intro _ _ _ p i h r c1 c2 e ieh hopt h1 h2 hin
    have hrun := handle2_inputFail p i h r c1 c2 e ieh hopt h1 h2 hin
    refine ⟨hrun, ?_⟩
    rw [hrun]
    show Call.handlerRun ∉ stageTrace 2 ++ [Call.inputDec]
    simp [stageTrace]
  · intro _ _ _ _ p i h r c1 c2 c3 e ieh hopt h1 h2 h3 hin
    have hrun := handle3_inputFail p i h r c1 c2 c3 e ieh hopt h1 h2 h3 hin
    refine ⟨hrun, ?_⟩
    rw [hrun]
    show Call.handlerRun ∉ stageTrace 3 ++ [Call.inputDec]
    simp [stageTrace]
  · intro _ _ _ _ _ p i h r c1 c2 c3 c4 e ieh hopt h1 h2 h3 h4 hin
    have hrun := handle4_inputFail p i h r c1 c2 c3 c4 e ieh hopt h1 h2 h3 h4 hin
    refine ⟨hrun, ?_⟩
    rw [hrun]
    show Call.handlerRun ∉ stageTrace 4 ++ [Call.inputDec]
    simp [stageTrace]
  · intro _ _ _ _ _ _ p i h r c1 c2 c3 c4 c5 e ieh hopt h1 h2 h3 h4 h5 hin
    have hrun := handle5_inputFail p i h r c1 c2 c3 c4 c5 e ieh hopt h1 h2 h3 h4 h5 hin
    refine ⟨hrun, ?_⟩
    rw [hrun]
    show Call.handlerRun ∉ stageTrace 5 ++ [Call.inputDec]
    simp [stageTrace]
  · intro _ _ _ _ _ _ _ p i h r c1 c2 c3 c4 c5 c6 e ieh hopt h1 h2 h3 h4 h5 h6 hin
    have hrun := handle6_inputFail p i h r c1 c2 c3 c4 c5 c6 e ieh hopt h1 h2 h3 h4 h5 h6 hin
    refine ⟨hrun, ?_⟩
    rw [hrun]
    show Call.handlerRun ∉ stageTrace 6 ++ [Call.inputDec]
    simp [stageTrace]
  · intro _ _ _ _ _ _ _ _ p i h r c1 c2 c3 c4 c5 c6 c7 e ieh hopt h1 h2 h3 h4 h5 h6 h7 hin
    have hrun := handle7_inputFail p i h r c1 c2 c3 c4 c5 c6 c7 e ieh hopt h1 h2 h3 h4 h5 h6 h7 hin
    refine ⟨hrun, ?_⟩
    rw [hrun]
    show Call.handlerRun ∉ stageTrace 7 ++ [Call.inputDec]
    simp [stageTrace]
  · intro _ _ _ _ _ _ _ _ _ p i h r c1 c2 c3 c4 c5 c6 c7 c8 e ieh hopt h1 h2 h3 h4 h5 h6 h7 h8 hin
    have hrun := handle8_inputFail p i h r c1 c2 c3 c4 c5 c6 c7 c8 e ieh hopt h1 h2 h3 h4 h5 h6 h7 h8 hin
    refine ⟨hrun, ?_⟩
    rw [hrun]
    show Call.handlerRun ∉ stageTrace 8 ++ [Call.inputDec]
    simp [stageTrace]
  · intro _ _ p i h r c e ieh hopt hdec hin
    have hrun : StagedInput.HandlePipelineWithInput1 p i h r =
        ((ieh e) r, [Call.stage 1, Call.inputDec]) := by
      simp [StagedInput.HandlePipelineWithInput1, NewPipelineWithInput1, NewPipeline2,
        applyOptions, hdec, hin, PipelineOptions.callInputErrorHandler, hopt]
    refine ⟨hrun, ?_⟩
    rw [hrun]
    show Call.handlerRun ∉ [Call.stage 1, Call.inputDec]
    simp


/-- Witness for C1: a concrete arity-1 pipeline under the default policy whose
stage-1 decoder fails with "boom"; the default stage-error Responder renders
400 with the wrapped message, and only stage 1 is invoked. -/
theorem claim_C1_short_circuit_on_stage_failure_witness :
    @HandlePipelineWithInput1 Nat Nat
        (NewPipeline1 (fun _ => Except.error "boom") [])
        (fun _ => Except.ok 0) (fun _ _ => none) ⟨[], [], [], 0⟩ =
      (⟨400, "context1 decode error: boom\n"⟩, [Call.stage 1]) := by
  have hrun := claim_C1_short_circuit_on_stage_failure.1 Nat Nat
    (NewPipeline1 (fun _ => Except.error "boom") [])
    (fun _ => Except.ok 0) (fun _ _ => none) ⟨[], [], [], 0⟩ 1 "boom"
    (fun stage err => errorResponder ("context" ++ toString stage ++ " decode error: " ++ err))
    rfl rfl
  rw [hrun]
  rfl

/-- Witness for C2: a concrete arity-1 pipeline on which everything succeeds;
the handler receives the decoded values 7 and 3 and its response is rendered. -/
theorem claim_C2_sequential_accumulation_witness :
    @HandlePipelineWithInput1 Nat Nat
        (NewPipeline1 (fun _ => Except.ok 7) [])
        (fun _ => Except.ok 3)
        (fun c t => some (fun _ => ⟨200, toString (c + t)⟩)) ⟨[], [], [], 0⟩ =
      (⟨200, "10"⟩, [Call.stage 1, Call.inputDec, Call.handlerRun]) := by
  have hrun := (claim_C2_sequential_accumulation.1 Nat Nat
    (NewPipeline1 (fun _ => Except.ok 7) [])
    (fun _ => Except.ok 3)
    (fun c t => some (fun _ => ⟨200, toString (c + t)⟩)) ⟨[], [], [], 0⟩ 7 3
    rfl rfl).1
  rw [hrun]
  rfl

/-- Witness for C4: a concrete arity-1 pipeline with a custom handler mapping
every failure to 401/"unauthorized"; stage 1 fails and the custom Responder is
rendered. -/
theorem claim_C4_custom_error_handler_override_witness :
    @HandlePipelineWithInput1 Nat Nat
        (NewPipeline1 (fun _ => Except.error "missing header X")
          [WithContextErrorHandler (fun _ _ => fun _ => ⟨401, "unauthorized"⟩)])
        (fun _ => Except.ok 0) (fun _ _ => none) ⟨[], [], [], 0⟩ =
      (⟨401, "unauthorized"⟩, [Call.stage 1]) := by
  have hrun := claim_C4_custom_error_handler_override.1 Nat Nat
    (fun _ => Except.error "missing header X")
    (fun _ _ => fun _ => ⟨401, "unauthorized"⟩)
    (fun _ => Except.ok 0) (fun _ _ => none) ⟨[], [], [], 0⟩ 1 "missing header X"
    rfl
  rw [hrun]
  rfl

/-- Witness for C5: a concrete arity-1 pipeline on which everything succeeds
and the handler returns nil; the response is 204 with an empty body. -/
theorem claim_C5_nil_responder_renders_no_content_witness :
    (@HandlePipelineWithInput1 Nat Nat
        (NewPipeline1 (fun _ => Except.ok 7) [])
        (fun _ => Except.ok 3) (fun _ _ => none) ⟨[], [], [], 0⟩).1 = ⟨204, ""⟩ :=
  claim_C5_nil_responder_renders_no_content.1 Nat Nat
    (NewPipeline1 (fun _ => Except.ok 7) [])
    (fun _ => Except.ok 3) (fun _ _ => none) ⟨[], [], [], 0⟩ 7 3
    rfl rfl rfl

/-- Witness for C6: a concrete arity-1 pipeline under the default policy whose
input decoder fails with "bad input"; the default input-error Responder is
rendered and the handler is never invoked. -/
theorem claim_C6_input_error_renders_input_policy_witness :
    @HandlePipelineWithInput1 Nat Nat
        (NewPipeline1 (fun _ => Except.ok 7) [])
        (fun _ => Except.error "bad input") (fun _ _ => none) ⟨[], [], [], 0⟩ =
      (⟨400, "input decode error: bad input\n"⟩, [Call.stage 1, Call.inputDec]) := by
  have hrun := (claim_C6_input_error_renders_input_policy.1 Nat Nat
    (NewPipeline1 (fun _ => Except.ok 7) [])
    (fun _ => Except.error "bad input") (fun _ _ => none) ⟨[], [], [], 0⟩ 7 "bad input"
    (fun err => errorResponder ("input decode error: " ++ err))
    rfl rfl rfl).1
  rw [hrun]
  rfl


/-- C3 counterexample: under the default policy, the arity-1 stage-failure body
for the error "missing header X" is "context1 decode error: missing header X\n"
— it has status 400 and contains "missing header X", but the literal text
"stage 1" claimed by the spec does not occur in it. -/
theorem claim_C3_default_stage_error_counterexample :
    (@HandlePipelineWithInput1 Nat Nat
        (NewPipeline1 (fun _ => Except.error "missing header X") [])
        (fun _ => Except.ok 0) (fun _ _ => none) ⟨[], [], [], 0⟩).1 =
      ⟨400, "context1 decode error: missing header X\n"⟩ ∧
    containsSub "context1 decode error: missing header X\n" "missing header X" = true ∧
    containsSub "context1 decode error: missing header X\n" "stage 1" = false := by
  refine ⟨rfl, ?_, ?_⟩ <;> decide

/-- C3 amended: under the default error policy, an arity-1 pipeline whose
stage-1 decoder returns the error "missing header X" renders status 400 with
body "context1 decode error: missing header X\n" — the body contains the
stage-identifying text "context1" (not the literal "stage 1") and the original
error text "missing header X". -/
theorem claim_C3_default_stage_error_amended :
    ∀ (C T : Type) (d : HttpRequest → Except Err C) (i : HttpRequest → Except Err T)
      (h : C → T → Option Responder) (r : HttpRequest),
      d r = Except.error "missing header X" →
      ((HandlePipelineWithInput1 (NewPipeline1 d []) i h r).1 =
          ⟨400, "context1 decode error: missing header X\n"⟩ ∧
        containsSub (HandlePipelineWithInput1 (NewPipeline1 d []) i h r).1.body
          "context1" = true ∧
        containsSub (HandlePipelineWithInput1 (NewPipeline1 d []) i h r).1.body
          "missing header X" = true) := by
  intro C T d i h r hd
  have hrun := handle1_contextFail (NewPipeline1 d []) i h r 1 "missing header X"
    (fun stage err => errorResponder ("context" ++ toString stage ++ " decode error: " ++ err))
    rfl hd
  rw [hrun]
  refine ⟨rfl, ?_, ?_⟩
  · show containsSub "context1 decode error: missing header X\n" "context1" = true
    decide
  · show containsSub "context1 decode error: missing header X\n" "missing header X" = true
    decide

/-- Witness for the amended C3 at a concrete failing decoder and request. -/
theorem claim_C3_default_stage_error_amended_witness :
    (@HandlePipelineWithInput1 Nat Nat
        (NewPipeline1 (fun _ => Except.error "missing header X") [])
        (fun _ => Except.ok 0) (fun _ _ => none) ⟨[], [], [], 0⟩).1 =
      ⟨400, "context1 decode error: missing header X\n"⟩ :=
  (claim_C3_default_stage_error_amended Nat Nat
    (fun _ => Except.error "missing header X")
    (fun _ => Except.ok 0) (fun _ _ => none) ⟨[], [], [], 0⟩ rfl).1


/-- C7 counterexample: the same base pipeline (stage decoder failing with
"boom", error policy mapping stage failures to 401/"unauthorized"), input
decoder and handler, given to the two `HandlePipelineWithInput1` variants: the
struct-embedding-chain variant renders the inherited policy (401), while the
flat-field variant — whose `NewPipelineWithInput1` starts from a fresh empty
`PipelineOptions` — renders the built-in default (400, "Error: boom").  The
claimed behavioural equivalence is false. -/
theorem claim_C7_variant_equivalence_counterexample :
    (@StagedInput.HandlePipelineWithInput1 Nat Nat
        ⟨fun _ => Except.error "boom",
          ⟨some (fun _ _ => fun _ => ⟨401, "unauthorized"⟩),
            some (fun _ => fun _ => ⟨422, "bad input"⟩)⟩⟩
        (fun _ => Except.ok 0) (fun _ _ _ => none) ⟨[], [], [], 0⟩).1 =
      ⟨401, "unauthorized"⟩ ∧
    (@Flat.HandlePipelineWithInput1 Nat Nat
        ⟨fun _ => Except.error "boom",
          ⟨some (fun _ _ => fun _ => ⟨401, "unauthorized"⟩),
            some (fun _ => fun _ => ⟨422, "bad input"⟩)⟩⟩
        (fun _ => Except.ok 0) (fun _ _ _ => none) ⟨[], [], [], 0⟩).1 =
      ⟨400, "Error: boom"⟩ ∧
    (⟨401, "unauthorized"⟩ : HttpResp) ≠ ⟨400, "Error: boom"⟩ := by
  refine ⟨rfl, rfl, ?_⟩
  decide

/-- C7 amended: the struct-embedding-chain and flat-field variants of
`HandlePipelineWithInput1` are NOT behaviourally equivalent in general; they
do produce the same response whenever the stage decoder and the input decoder
both succeed (both then render the handler's result identically, 204 for nil).
On any decode failure the struct-embedding variant renders the base pipeline's
(inherited) error policy, while the flat-field variant always renders its
built-in default handler, because its `NewPipelineWithInput1` builds the
options from a fresh empty `PipelineOptions`. -/
theorem claim_C7_variant_equivalence_amended :
    ∀ (C T : Type) (d : HttpRequest → Except Err C) (o : PipelineOptions)
      (i : HttpRequest → Except Err T) (h : Nat → C → T → Option Responder)
      (r : HttpRequest) (c : C) (t : T),
      d r = Except.ok c → i r = Except.ok t →
      ((StagedInput.HandlePipelineWithInput1 ⟨d, o⟩ i h r).1 =
          (Flat.HandlePipelineWithInput1 ⟨d, o⟩ i h r).1 ∧
        (StagedInput.HandlePipelineWithInput1 ⟨d, o⟩ i h r).1 =
          renderResult (h r.ctxToken c t) r) := by
  intro C T d o i h r c t hd hin
  cases hres : h r.ctxToken c t <;>
    simp [StagedInput.HandlePipelineWithInput1, Flat.HandlePipelineWithInput1,
      NewPipelineWithInput1, Flat.NewPipelineWithInput1, NewPipeline2, applyOptions,
      hd, hin, hres, renderResult]

/-- Witness for the amended C7 at a concrete base pipeline, decoders, handler
and request on which both decoders succeed. -/
theorem claim_C7_variant_equivalence_amended_witness :
    (@StagedInput.HandlePipelineWithInput1 Nat Nat
        ⟨fun _ => Except.ok 7, defaultOptions⟩
        (fun _ => Except.ok 3) (fun _ _ _ => none) ⟨[], [], [], 0⟩).1 =
      (@Flat.HandlePipelineWithInput1 Nat Nat
        ⟨fun _ => Except.ok 7, defaultOptions⟩
        (fun _ => Except.ok 3) (fun _ _ _ => none) ⟨[], [], [], 0⟩).1 :=
  (claim_C7_variant_equivalence_amended Nat Nat
    (fun _ => Except.ok 7) defaultOptions
    (fun _ => Except.ok 3) (fun _ _ _ => none) ⟨[], [], [], 0⟩ 7 3 rfl rfl).1

/-- C8: `Combine2(decoder1, decoder2)` succeeds exactly when both decoders
succeed, returning the struct ⟨V1, V2⟩ of their results in order; when
`decoder1` fails its error is wrapped as "decoder1 error: ..." and the result
does not depend on `decoder2` at all (it is never invoked); when `decoder2`
fails after `decoder1` succeeded, its error is wrapped likewise. -/
theorem claim_C8_combine2_spec :
    (∀ (T1 T2 : Type) (d1 : HttpRequest → Except Err T1)
      (d2 : HttpRequest → Except Err T2) (r : HttpRequest) (v1 : T1) (v2 : T2),
      d1 r = Except.ok v1 → d2 r = Except.ok v2 →
      Combine2 d1 d2 r = Except.ok ⟨v1, v2⟩) ∧
    (∀ (T1 T2 : Type) (d1 : HttpRequest → Except Err T1)
      (d2 : HttpRequest → Except Err T2) (r : HttpRequest) (e : Err),
      d1 r = Except.error e →
      Combine2 d1 d2 r = Except.error ("decoder1 error: " ++ e)) ∧
    (∀ (T1 T2 : Type) (d1 : HttpRequest → Except Err T1)
      (d2 : HttpRequest → Except Err T2) (r : HttpRequest) (v1 : T1) (e : Err),
      d1 r = Except.ok v1 → d2 r = Except.error e →
      Combine2 d1 d2 r = Except.error ("decoder2 error: " ++ e)) ∧
    (∀ (T1 T2 : Type) (d1 : HttpRequest → Except Err T1)
      (d2 : HttpRequest → Except Err T2) (r : HttpRequest),
      (∃ v, Combine2 d1 d2 r = Except.ok v) ↔
        ((∃ v1, d1 r = Except.ok v1) ∧ (∃ v2, d2 r = Except.ok v2))) ∧
    (∀ (T1 T2 : Type) (d1 : HttpRequest → Except Err T1)
      (d2 d2' : HttpRequest → Except Err T2) (r : HttpRequest) (e : Err),
      d1 r = Except.error e →
      Combine2 d1 d2 r = Combine2 d1 d2' r) := by
  refine ⟨?_, ?_, ?_, ?_, ?_⟩
  · intro T1 T2 d1 d2 r v1 v2 h1 h2
    simp [Combine2, h1, h2]
  · intro T1 T2 d1 d2 r e h1
    simp [Combine2, h1]
  · intro T1 T2 d1 d2 r v1 e h1 h2
    simp [Combine2, h1, h2]
  · intro T1 T2 d1 d2 r
    cases h1 : d1 r <;> cases h2 : d2 r <;> simp [Combine2, h1, h2]
  · intro T1 T2 d1 d2 d2' r e h1
    simp [Combine2, h1]

/-- Witness for C8 at concrete decoders: both succeed on the request carrying
header X and query q, and the combined decoder merges the two values. -/
theorem claim_C8_combine2_spec_witness :
    Combine2 (HeaderValue "X") (QueryParam "q")
        ⟨[("X", "x1")], [("q", "q1")], [], 0⟩ =
      Except.ok ⟨"x1", "q1"⟩ :=
  claim_C8_combine2_spec.1 String String (HeaderValue "X") (QueryParam "q")
    ⟨[("X", "x1")], [("q", "q1")], [], 0⟩ "x1" "q1" rfl rfl


namespace Jsonresp

/-- Setting a list of cookies folds into one event per cookie, in order. -/
theorem cookies_foldl_events (l : List (String × String)) (w : ResponseWriter) :
    (l.foldl (fun acc c => acc.addCookie c.1 c.2) w).events =
      w.events ++ l.map (fun c => WEvent.setCookie c.1 c.2) := by
  induction l generalizing w with
  | nil => simp
  | cons a t ih =>
    rw [List.foldl_cons, ih]
    simp [ResponseWriter.addCookie]

/-- Adding a list of headers folds into one event per header, in order. -/
theorem headers_foldl_events (l : List (String × String)) (w : ResponseWriter) :
    (l.foldl (fun acc kv => acc.headerSet kv.1 kv.2) w).events =
      w.events ++ l.map (fun kv => WEvent.setHeader kv.1 kv.2) := by
  induction l generalizing w with
  | nil => simp
  | cons a t ih =>
    rw [List.foldl_cons, ih]
    simp [ResponseWriter.headerSet]

/-- C9: if JSON serialization of the payload fails inside the jsonresp success
responder's `Respond`, the sink receives exactly the cookie and header events,
the Content-Type header, and then the internal-error fallback (status line 500
followed by its fixed body): the success status line is never written and no
payload bytes are ever written — the body is fully encoded into a buffer
before any write to the sink, so a failed encoding leaves nothing partial. -/
theorem claim_C9_serialization_failure_fallback :
    ∀ (T : Type) (marshal : T → Except Err String) (res : SuccessResponder T)
      (w : ResponseWriter) (e : Err),
      marshal res.data = Except.error e →
      (((res.Respond marshal w).1.events =
          w.events ++ res.cookies.map (fun c => WEvent.setCookie c.1 c.2)
            ++ res.header.map (fun kv => WEvent.setHeader kv.1 kv.2)
            ++ [WEvent.setHeader "Content-Type" "application/json",
                WEvent.writeHeader 500, WEvent.write "Internal Server Error"]) ∧
        (res.statusCode ≠ 500 →
          WEvent.writeHeader res.statusCode ∉
            (res.cookies.map (fun c => WEvent.setCookie c.1 c.2)
              ++ res.header.map (fun kv => WEvent.setHeader kv.1 kv.2)
              ++ [WEvent.setHeader "Content-Type" "application/json",
                  WEvent.writeHeader 500, WEvent.write "Internal Server Error"])) ∧
        (∀ s, WEvent.write s ∈
            (res.cookies.map (fun c => WEvent.setCookie c.1 c.2)
              ++ res.header.map (fun kv => WEvent.setHeader kv.1 kv.2)
              ++ [WEvent.setHeader "Content-Type" "application/json",
                  WEvent.writeHeader 500, WEvent.write "Internal Server Error"]) →
          s = "Internal Server Error")) := by
  intro T marshal res w e hmarshal
  refine ⟨?_, ?_, ?_⟩
  · simp only [SuccessResponder.Respond, writeJSON, hmarshal]
    rw [WriteInternalServerError, ResponseWriter.headerSet]
    rw [headers_foldl_events, cookies_foldl_events]
    simp [List.append_assoc]
  · intro hne
    simp [List.mem_append, List.mem_map]
    exact hne
  · intro s hs
    simp [List.mem_append, List.mem_map] at hs
    exact hs

/-- Witness for C9: concrete payload whose marshalling fails; the sink trace is
exactly Content-Type, the 500 status line, and the fallback body. -/
theorem claim_C9_serialization_failure_fallback_witness :
    ((@Success Nat 42).Respond (fun _ => Except.error "unsupported type")
        ⟨[], false⟩).1.events =
      [WEvent.setHeader "Content-Type" "application/json",
        WEvent.writeHeader 500, WEvent.write "Internal Server Error"] := by
  have hrun := (claim_C9_serialization_failure_fallback Nat
    (fun _ => Except.error "unsupported type") (Success 42) ⟨[], false⟩
    "unsupported type" rfl).1
  rw [hrun]
  rfl

end Jsonresp


/-- C10: the optional extractors `OptionalHeaderValue`, `OptionalQueryParam`
and `OptionalBearerToken` always return a nil error (the empty string when the
value is absent), while the required extractors `HeaderValue`, `QueryParam`
and `PathParam` return a non-nil error exactly when the extracted string is
empty; consequently a header, query parameter or path parameter present with
an empty value is indistinguishable from an absent one. -/
theorem claim_C10_required_vs_optional_extractors :
    (∀ (name : String) (r : HttpRequest), ∃ s, OptionalHeaderValue name r = Except.ok s) ∧
    (∀ (name : String) (r : HttpRequest), ∃ s, OptionalQueryParam name r = Except.ok s) ∧
    (∀ (r : HttpRequest), ∃ s, OptionalBearerToken r = Except.ok s) ∧
    (∀ (name : String) (r : HttpRequest),
      (∃ e, HeaderValue name r = Except.error e) ↔ r.headerGet name = "") ∧
    (∀ (name : String) (r : HttpRequest),
      (∃ e, QueryParam name r = Except.error e) ↔ r.queryGet name = "") ∧
    (∀ (name : String) (r : HttpRequest),
      (∃ e, PathParam name r = Except.error e) ↔ r.pathGet name = "") ∧
    (∀ (name : String) (t : List (String × String)) (q pth : List (String × String))
      (ct : Nat),
      HeaderValue name ⟨(name, "") :: t, q, pth, ct⟩ = HeaderValue name ⟨[], q, pth, ct⟩ ∧
      QueryParam name ⟨t, (name, "") :: q, pth, ct⟩ = QueryParam name ⟨t, [], pth, ct⟩ ∧
      PathParam name ⟨t, q, (name, "") :: pth, ct⟩ = PathParam name ⟨t, q, [], ct⟩) := by
  refine ⟨?_, ?_, ?_, ?_, ?_, ?_, ?_⟩
  · intro name r
    exact ⟨r.headerGet name, rfl⟩
  · intro name r
    exact ⟨r.queryGet name, rfl⟩
  · intro r
    by_cases hc : (r.headerGet "Authorization" = "" || !strStarts (r.headerGet "Authorization") "Bearer ") = true
    · exact ⟨"", by simp [OptionalBearerToken, hc]⟩
    · exact ⟨trimLeading (r.headerGet "Authorization") "Bearer ", by simp [OptionalBearerToken, hc]⟩
  · intro name r
    constructor
    · rintro ⟨e, he⟩
      by_contra hv
      simp [HeaderValue, hv] at he
    · intro hv
      exact ⟨"header \"" ++ name ++ "\" not found", by simp [HeaderValue, hv]⟩
  · intro name r
    constructor
    · rintro ⟨e, he⟩
      by_contra hv
      simp [QueryParam, hv] at he
    · intro hv
      exact ⟨"query parameter \"" ++ name ++ "\" not found", by simp [QueryParam, hv]⟩
  · intro name r
    constructor
    · rintro ⟨e, he⟩
      by_contra hv
      simp [PathParam, hv] at he
    · intro hv
      exact ⟨"path parameter \"" ++ name ++ "\" not found", by simp [PathParam, hv]⟩
  · intro name t q pth ct
    refine ⟨?_, ?_, ?_⟩ <;>
      simp [HeaderValue, QueryParam, PathParam, HttpRequest.headerGet,
        HttpRequest.queryGet, HttpRequest.pathGet, List.lookup]

/-- Witness for C10: the required header extractor fails on a request without
the header, while the optional one succeeds with the empty string. -/
theorem claim_C10_required_vs_optional_extractors_witness :
    (∃ e, HeaderValue "X" ⟨[], [], [], 0⟩ = Except.error e) ∧
    (∃ s, OptionalHeaderValue "X" ⟨[], [], [], 0⟩ = Except.ok s) :=
  ⟨(claim_C10_required_vs_optional_extractors.2.2.2.1 "X" ⟨[], [], [], 0⟩).mpr rfl,
    claim_C10_required_vs_optional_extractors.1 "X" ⟨[], [], [], 0⟩⟩

end GoHttphandler
